import Mathlib

/-!
# Verification of the pdpIQ Scoring & Recommendation Engine

Shallow embedding of the scoring engine of the `llm-visibility-analyzer`
repository (`src/scoring/scoring-engine.js`, `src/scoring/weights.js`,
`src/scoring/grading.js`) in Lean 4, together with proofs of the spec's
claims about it.

Modelling conventions:
* JavaScript numbers are modelled as `ℚ` (all constants appearing in the
  engine are exactly representable; `Math.round` is `jsRound`,
  `Math.min` is `min`).
* JavaScript records with possibly-absent sub-records are modelled with
  `Option`; the `data?.section || {}` idiom is modelled by `Option.getD`
  with a record of JS-falsy defaults (`false`, `0`, `""`, `none`).
* Strings are Lean `String`s; the `Factor.details` fields (pure display
  text) and the `timestamp` field (IO) are not modelled.
* The extractor (`src/content/extractors/structured-data.js`) always
  returns a `schemas` record with every key present (initialised to
  `null`), so the structured-data section is modelled as a plain record
  whose schema fields are `Bool`/`Option` ("non-null present" flags).
-/

/-- JavaScript `Math.round` on a non-negative rational:
`Math.round(x) = ⌊x + 0.5⌋` (round half toward +∞). Uses `Rat.floor`
so that concrete instances evaluate inside the kernel. -/
def jsRound (x : ℚ) : ℚ := ((x + 1/2).floor : ℤ)

theorem jsRound_eq (x : ℚ) : jsRound x = (⌊x + 1/2⌋ : ℤ) := by
  unfold jsRound
  congr 1

/-- Factor status strings used by the engine: `pass`, `warning`, `fail`,
`unknown`. -/
inductive Status where
  | pass
  | warning
  | fail
  | unknown
deriving DecidableEq, Repr, Inhabited

/-- A single scored factor record, as pushed by the category scorers.
JS factor objects omit `critical`/`contextual` when unset; an absent key
reads as `undefined` (falsy), modelled by `false`. -/
structure Factor where
  name : String
  status : Status
  points : ℚ
  maxPoints : ℚ
  critical : Bool := false
  contextual : Bool := false
deriving DecidableEq, Repr, Inhabited

/-- Result of scoring one category. -/
structure CategoryScore where
  score : ℚ
  maxScore : ℚ
  factors : List Factor
  weight : ℚ
  categoryName : String
deriving DecidableEq, Repr, Inhabited

/-- `CATEGORY_WEIGHTS` from `weights.js` (must sum to 1.0). -/
structure CategoryWeights where
  structuredData : ℚ
  protocolMeta : ℚ
  contentQuality : ℚ
  contentStructure : ℚ
  authorityTrust : ℚ
deriving DecidableEq, Repr

def CATEGORY_WEIGHTS : CategoryWeights :=
  { structuredData := 0.25
    protocolMeta := 0.20
    contentQuality := 0.25
    contentStructure := 0.15
    authorityTrust := 0.15 }

/-- One context-multiplier table (`CONTEXT_MULTIPLIERS.want` etc.). -/
structure Multipliers where
  emotionalBenefitCopy : ℚ
  technicalSpecifications : ℚ
  compatibilityInfo : ℚ
  socialProof : ℚ
  certifications : ℚ
  reviewCount : ℚ
  reviewRating : ℚ
  benefitStatements : ℚ
  warrantyInfo : ℚ
  comparisonContent : ℚ
deriving DecidableEq, Repr

def CONTEXT_MULTIPLIERS_want : Multipliers :=
  { emotionalBenefitCopy := 1.5
    technicalSpecifications := 0.6
    compatibilityInfo := 0.4
    socialProof := 1.4
    certifications := 0.5
    reviewCount := 1.4
    reviewRating := 1.3
    benefitStatements := 1.5
    warrantyInfo := 0.7
    comparisonContent := 0.6 }

def CONTEXT_MULTIPLIERS_need : Multipliers :=
  { emotionalBenefitCopy := 0.5
    technicalSpecifications := 1.5
    compatibilityInfo := 2.0
    socialProof := 0.8
    certifications := 1.6
    reviewCount := 0.8
    reviewRating := 1.0
    benefitStatements := 0.5
    warrantyInfo := 1.4
    comparisonContent := 1.4 }

def CONTEXT_MULTIPLIERS_hybrid : Multipliers :=
  { emotionalBenefitCopy := 1.0
    technicalSpecifications := 1.0
    compatibilityInfo := 1.0
    socialProof := 1.0
    certifications := 1.0
    reviewCount := 1.0
    reviewRating := 1.0
    benefitStatements := 1.0
    warrantyInfo := 1.0
    comparisonContent := 1.0 }

/-- `CONTEXT_MULTIPLIERS[context] || CONTEXT_MULTIPLIERS.hybrid`: the
lookup done by the `ScoringEngine` constructor, restricted to the domain
where the bracket lookup misses the prototype chain. It is exact for the
three own keys and for every other string that is not a property name
inherited from `Object.prototype`; `contextMultipliersLookup` below
models the full JS lookup, and for a `context` in
`OBJECT_PROTOTYPE_MEMBERS` the two differ (the engine then keeps the
truthy inherited member, whose multiplier fields read `undefined`). -/
def engineMultipliers (context : String) : Multipliers :=
  if context = "want" then CONTEXT_MULTIPLIERS_want
  else if context = "need" then CONTEXT_MULTIPLIERS_need
  else if context = "hybrid" then CONTEXT_MULTIPLIERS_hybrid
  else CONTEXT_MULTIPLIERS_hybrid

/-- The property names every object literal inherits from
`Object.prototype` (including the Annex B accessors). Reading any of
them yields a truthy value: a function, or for `__proto__` the prototype
object itself. -/
def OBJECT_PROTOTYPE_MEMBERS : List String :=
  ["constructor", "hasOwnProperty", "isPrototypeOf", "propertyIsEnumerable",
   "toLocaleString", "toString", "valueOf", "__proto__",
   "__defineGetter__", "__defineSetter__", "__lookupGetter__", "__lookupSetter__"]

/-- The full JS semantics of
`CONTEXT_MULTIPLIERS[context] || CONTEXT_MULTIPLIERS.hybrid`: the
bracket lookup walks the prototype chain, so an own key returns its
table, a `context` naming an `Object.prototype` member returns that
truthy inherited member — a function or object rather than a multiplier
table, modelled as `none` — and the `|| hybrid` fallback fires only for
the remaining strings, whose lookup yields `undefined`. In the `none`
case `this.multipliers` is not a table and each multiplier field read
yields `undefined`. -/
def contextMultipliersLookup (context : String) : Option Multipliers :=
  if context = "want" then some CONTEXT_MULTIPLIERS_want
  else if context = "need" then some CONTEXT_MULTIPLIERS_need
  else if context = "hybrid" then some CONTEXT_MULTIPLIERS_hybrid
  else if context ∈ OBJECT_PROTOTYPE_MEMBERS then none
  else some CONTEXT_MULTIPLIERS_hybrid

/-- `FACTOR_WEIGHTS.structuredData`. -/
structure StructuredDataWeights where
  productSchema : ℚ
  offerSchema : ℚ
  aggregateRating : ℚ
  reviewSchema : ℚ
  faqSchema : ℚ
  breadcrumbSchema : ℚ
  organizationSchema : ℚ
  imageSchema : ℚ
deriving DecidableEq, Repr

def FW_structuredData : StructuredDataWeights :=
  { productSchema := 30
    offerSchema := 20
    aggregateRating := 15
    reviewSchema := 10
    faqSchema := 10
    breadcrumbSchema := 5
    organizationSchema := 5
    imageSchema := 5 }

/-- `FACTOR_WEIGHTS.protocolMeta`. -/
structure ProtocolMetaWeights where
  ogImage : ℚ
  ogImageFormat : ℚ
  ogTitle : ℚ
  ogDescription : ℚ
  ogType : ℚ
  twitterCard : ℚ
  twitterImage : ℚ
  canonical : ℚ
  metaDescription : ℚ
  robotsAllowsIndex : ℚ
deriving DecidableEq, Repr

def FW_protocolMeta : ProtocolMetaWeights :=
  { ogImage := 20
    ogImageFormat := 15
    ogTitle := 10
    ogDescription := 10
    ogType := 5
    twitterCard := 10
    twitterImage := 5
    canonical := 10
    metaDescription := 10
    robotsAllowsIndex := 5 }

/-- `FACTOR_WEIGHTS.contentQuality`. -/
structure ContentQualityWeights where
  descriptionLength : ℚ
  descriptionQuality : ℚ
  specificationCount : ℚ
  specificationDetail : ℚ
  featureCount : ℚ
  faqPresence : ℚ
  dimensions : ℚ
  materials : ℚ
  careInstructions : ℚ
  warrantyInfo : ℚ
  compatibilityInfo : ℚ
  comparisonContent : ℚ
deriving DecidableEq, Repr

def FW_contentQuality : ContentQualityWeights :=
  { descriptionLength := 15
    descriptionQuality := 10
    specificationCount := 10
    specificationDetail := 5
    featureCount := 10
    faqPresence := 10
    dimensions := 5
    materials := 5
    careInstructions := 3
    warrantyInfo := 7
    compatibilityInfo := 10
    comparisonContent := 5 }

/-- `FACTOR_WEIGHTS.contentStructure`. -/
structure ContentStructureWeights where
  h1Presence : ℚ
  headingHierarchy : ℚ
  semanticHTML : ℚ
  contentRatioWeight : ℚ
  tableStructure : ℚ
  listStructure : ℚ
  ariaLabels : ℚ
  primaryImageAlt : ℚ
  allImagesAlt : ℚ
  jsDependency : ℚ
  readability : ℚ
deriving DecidableEq, Repr

def FW_contentStructure : ContentStructureWeights :=
  { h1Presence := 15
    headingHierarchy := 12
    semanticHTML := 12
    contentRatioWeight := 12
    tableStructure := 10
    listStructure := 8
    ariaLabels := 6
    primaryImageAlt := 10
    allImagesAlt := 8
    jsDependency := 10
    readability := 8 }

/-- `FACTOR_WEIGHTS.authorityTrust`. -/
structure AuthorityTrustWeights where
  reviewCount : ℚ
  averageRating : ℚ
  reviewRecency : ℚ
  reviewDepth : ℚ
  brandClarity : ℚ
  certifications : ℚ
  awards : ℚ
deriving DecidableEq, Repr

def FW_authorityTrust : AuthorityTrustWeights :=
  { reviewCount := 25
    averageRating := 20
    reviewRecency := 15
    reviewDepth := 10
    brandClarity := 15
    certifications := 10
    awards := 5 }

/-- `GRADE_THRESHOLDS` from `weights.js`. -/
structure GradeThresholds where
  A : ℚ
  B : ℚ
  C : ℚ
  D : ℚ
  F : ℚ
deriving DecidableEq, Repr

def GRADE_THRESHOLDS : GradeThresholds :=
  { A := 90, B := 80, C := 70, D := 60, F := 0 }

/-- `getGrade` from `weights.js`: strict descending-threshold scan. -/
def getGrade (score : ℚ) : String :=
  if score ≥ GRADE_THRESHOLDS.A then "A"
  else if score ≥ GRADE_THRESHOLDS.B then "B"
  else if score ≥ GRADE_THRESHOLDS.C then "C"
  else if score ≥ GRADE_THRESHOLDS.D then "D"
  else "F"

/-- `getGradeDescription` from `weights.js`. -/
def getGradeDescription (grade : String) : String :=
  if grade = "A" then "Excellent LLM visibility; minor optimizations possible"
  else if grade = "B" then "Good foundation; specific gaps to address"
  else if grade = "C" then "Average visibility; significant opportunities"
  else if grade = "D" then "Below average; multiple critical issues"
  else if grade = "F" then "Poor visibility; fundamental changes needed"
  else ""

example : getGrade 89 = "B" := by decide
example : getGrade 90 = "A" := by decide
example : jsRound (7/2) = 4 := by rw [jsRound_eq]; norm_num
example : jsRound (33/10) = 3 := by rw [jsRound_eq]; norm_num
example : jsRound 0 = 0 := by rw [jsRound_eq]; norm_num

/-! ## Input data model (`ExtractedPageData`)

Sections mirror what each scorer reads.  `Option` models a JS record that
may be `undefined`; `Option.getD {}` models the `data?.section || {}`
idiom, the defaults inside `{}` being the JS-falsy values each leaf read
collapses to (`undefined` number reads as falsy `0`, `undefined` string
as `""`, `undefined` bool as `false`). Leaves where the code
distinguishes `undefined` from `false` keep an `Option` (only
`reviews.hasRecentReviews`, compared with `!== false`). -/

/-- `data.schemas` as consumed by `scoreStructuredData`.  The extractor
initialises every schema key to `null`, so each presence test
`schemas.x !== null` is a plain flag here. -/
structure SchemasFacts where
  product : Bool := false
  offer : Bool := false
  aggregateRating : Bool := false
  reviews : ℕ := 0
  faq : Option ℕ := none
  breadcrumb : Bool := false
  organization : Bool := false
  brand : Bool := false
  images : ℕ := 0
deriving DecidableEq, Repr, Inhabited

structure StructuredDataFacts where
  schemas : SchemasFacts := {}
deriving DecidableEq, Repr, Inhabited

structure OpenGraphFacts where
  image : String := ""
  title : String := ""
  description : String := ""
  type : String := ""
deriving DecidableEq, Repr, Inhabited

structure TwitterCardsFacts where
  card : String := ""
  image : String := ""
deriving DecidableEq, Repr, Inhabited

structure CanonicalFacts where
  present : Bool := false
  matchesCurrentUrl : Bool := false
deriving DecidableEq, Repr, Inhabited

structure StandardMetaFacts where
  description : String := ""
deriving DecidableEq, Repr, Inhabited

structure RobotsFacts where
  isBlocked : Bool := false
deriving DecidableEq, Repr, Inhabited

structure MetaTagsFacts where
  openGraph : Option OpenGraphFacts := none
  twitterCards : Option TwitterCardsFacts := none
  canonical : Option CanonicalFacts := none
  standard : Option StandardMetaFacts := none
  robots : Option RobotsFacts := none
deriving DecidableEq, Repr, Inhabited

/-- `ImageVerificationResult` (the `format` string only feeds display
text and is not modelled). -/
structure ImageVerificationResult where
  isWebP : Bool := false
  isValidFormat : Bool := false
deriving DecidableEq, Repr, Inhabited

structure DescriptionFacts where
  wordCount : ℕ := 0
  lengthScore : ℚ := 0
  hasBenefitStatements : Bool := false
  hasEmotionalLanguage : Bool := false
  hasTechnicalTerms : Bool := false
deriving DecidableEq, Repr, Inhabited

structure SpecificationsFacts where
  count : ℕ := 0
  countScore : ℚ := 0
deriving DecidableEq, Repr, Inhabited

structure FeaturesFacts where
  count : ℕ := 0
  countScore : ℚ := 0
deriving DecidableEq, Repr, Inhabited

structure FaqFacts where
  count : ℕ := 0
  countScore : ℚ := 0
deriving DecidableEq, Repr, Inhabited

structure ProductDetailsFacts where
  hasDimensions : Bool := false
  hasMaterials : Bool := false
  hasCareInstructions : Bool := false
  hasWarranty : Bool := false
  hasCompatibility : Bool := false
deriving DecidableEq, Repr, Inhabited

structure ContentQualityFacts where
  description : Option DescriptionFacts := none
  specifications : Option SpecificationsFacts := none
  features : Option FeaturesFacts := none
  faq : Option FaqFacts := none
  productDetails : Option ProductDetailsFacts := none
deriving DecidableEq, Repr, Inhabited

structure HeadingsFacts where
  hasSingleH1 : Bool := false
  hasH1 : Bool := false
  hierarchyValid : Bool := false
deriving DecidableEq, Repr, Inhabited

structure SemanticHTMLFacts where
  score : ℚ := 0
  hasMain : Bool := false
  hasArticle : Bool := false
deriving DecidableEq, Repr, Inhabited

structure ContentRatioFacts where
  score : ℚ := 0
  ratio : ℚ := 0
deriving DecidableEq, Repr, Inhabited

structure TablesFacts where
  score : ℚ := 0
  hasProperTables : Bool := false
  tableCount : ℕ := 0
deriving DecidableEq, Repr, Inhabited

structure ListsFacts where
  score : ℚ := 0
  hasProperLists : Bool := false
deriving DecidableEq, Repr, Inhabited

structure AccessibilityFacts where
  ariaLabels : ℕ := 0
deriving DecidableEq, Repr, Inhabited

structure PrimaryImageFacts where
  hasAlt : Bool := false
deriving DecidableEq, Repr, Inhabited

structure PageImagesFacts where
  primaryImage : Option PrimaryImageFacts := none
  altCoverage : ℚ := 0
deriving DecidableEq, Repr, Inhabited

structure JsDependencyFacts where
  score : ℚ := 0
  dependencyLevel : String := ""
deriving DecidableEq, Repr, Inhabited

structure ContentStructureFacts where
  headings : Option HeadingsFacts := none
  semanticHTML : Option SemanticHTMLFacts := none
  contentRatio : Option ContentRatioFacts := none
  tables : Option TablesFacts := none
  lists : Option ListsFacts := none
  accessibility : Option AccessibilityFacts := none
  images : Option PageImagesFacts := none
  jsDependency : Option JsDependencyFacts := none
deriving DecidableEq, Repr, Inhabited

structure ReviewsFacts where
  count : ℕ := 0
  countScore : ℚ := 0
  averageRating : ℚ := 0
  ratingScore : ℚ := 0
  hasRecentReviews : Option Bool := none
  averageReviewLength : ℚ := 0
  depthScore : ℚ := 0
deriving DecidableEq, Repr, Inhabited

structure BrandFacts where
  score : ℚ := 0
  clarity : String := ""
deriving DecidableEq, Repr, Inhabited

structure CertificationsFacts where
  count : ℕ := 0
  score : ℚ := 0
deriving DecidableEq, Repr, Inhabited

structure AwardsFacts where
  count : ℕ := 0
deriving DecidableEq, Repr, Inhabited

structure TrustSignalsFacts where
  reviews : Option ReviewsFacts := none
  brand : Option BrandFacts := none
  certifications : Option CertificationsFacts := none
  awards : Option AwardsFacts := none
deriving DecidableEq, Repr, Inhabited

/-- `ExtractedPageData` as `calculateScore` slices it. -/
structure ExtractedPageData where
  structuredData : StructuredDataFacts := {}
  metaTags : Option MetaTagsFacts := none
  contentQuality : Option ContentQualityFacts := none
  contentStructure : Option ContentStructureFacts := none
  trustSignals : Option TrustSignalsFacts := none
deriving DecidableEq, Repr, Inhabited

/-! ## String helpers for the og:image URL heuristic -/

/-- JS `String.prototype.toLowerCase` (ASCII case mapping, which is all
a URL-extension check needs). -/
def strToLower (s : String) : String := String.mk (s.toList.map Char.toLower)

/-- Whether `pat` occurs as a contiguous run inside `l`
(JS `String.prototype.includes`). -/
def listHasInfix (pat : List Char) : List Char → Bool
  | [] => pat.isEmpty
  | c :: cs => pat.isPrefixOf (c :: cs) || listHasInfix pat cs

def strHasSubstr (s pat : String) : Bool := listHasInfix pat.toList s.toList

def strEndsWith (s pat : String) : Bool := pat.toList.isSuffixOf s.toList

/-- The regex `\.(jpe?g|png|gif)(\?|$)` from `scoreProtocolMeta`: one of
the raster extensions either at the end of the URL or followed by `?`. -/
def matchesRasterFormat (url : String) : Bool :=
  [".jpeg", ".jpg", ".png", ".gif"].any fun ext =>
    strEndsWith url ext || strHasSubstr url (ext ++ "?")

/-! ## Factor point combinators

The JS factor blocks repeat a handful of point formulas; each is named
here once and reused, so every factor's point computation is a named
function a bound lemma can speak about. -/

/-- `cond ? w : 0` — the binary pass/fail point pattern. -/
def binScore (c : Prop) [Decidable c] (w : ℚ) : ℚ := if c then w else 0

/-- `cond ? 0 : w` — used by the robots factor (`isBlocked ? 0 : w`). -/
def gatedScore (c : Prop) [Decidable c] (w : ℚ) : ℚ := if c then 0 else w

/-- `present ? (optimal ? w : w * 0.7) : 0` — the present/optimal
pattern of the meta-tag factors. -/
def presentOptimalScore (present optimal : Prop) [Decidable present] [Decidable optimal]
    (w : ℚ) : ℚ :=
  if present then (if optimal then w else w * 0.7) else 0

/-- `subScore ? Math.round((subScore / 100) * w) : 0` — the
collector-sub-score pattern. -/
def fractionScore (s w : ℚ) : ℚ := if s ≠ 0 then jsRound ((s / 100) * w) else 0

/-- Description Quality points: each half of the factor weight scaled by
its context multiplier, rounded, then capped at the factor weight. -/
def descQualityPoints (m : Multipliers) (desc : DescriptionFacts) : ℚ :=
  let w := FW_contentQuality.descriptionQuality
  min w (jsRound
    ((if desc.hasBenefitStatements || desc.hasEmotionalLanguage then
        (w / 2) * m.emotionalBenefitCopy else 0) +
     (if desc.hasTechnicalTerms then (w / 2) * m.technicalSpecifications else 0)))

/-- Specifications points: sub-score fraction, context multiplier, cap at
150% of base, then the pushed points are capped at the base weight. -/
def specificationsPoints (m : Multipliers) (specs : SpecificationsFacts) : ℚ :=
  let w := FW_contentQuality.specificationCount
  min w (min (w * 1.5) (jsRound (fractionScore specs.countScore w * m.technicalSpecifications)))

/-- NaN-propagating multiplication over JS numbers (`none` is `NaN`, and
an `undefined` operand also enters as `none` since `x * undefined` is
`NaN`). -/
def jsMulNum (a b : Option ℚ) : Option ℚ := a.bind (fun x => b.map (fun y => x * y))

/-- `Math.round` over possibly-NaN numbers: `Math.round(NaN)` is `NaN`. -/
def jsRoundNum : Option ℚ → Option ℚ := Option.map jsRound

/-- `Math.min(c, x)` over possibly-NaN `x`: `Math.min(c, NaN)` is `NaN`. -/
def jsMinNum (c : ℚ) : Option ℚ → Option ℚ := Option.map (min c)

/-- The Specifications factor points computed over possibly-NaN numbers,
with the context multiplier read through the full constructor lookup:
`specScore = countScore ? round(countScore/100 * w) : 0`, then
`round(specScore * this.multipliers.technicalSpecifications)` where the
field read is `undefined` (`none`) when the lookup returned an inherited
`Object.prototype` member, then `min(w * 1.5, specScore)` and pushed
points `min(w, specScore)`. Agrees with `specificationsPoints` whenever
the lookup resolves to a table. -/
def specificationsPointsJs (context : String) (specs : SpecificationsFacts) : Option ℚ :=
  let w := FW_contentQuality.specificationCount
  let m := (contextMultipliersLookup context).map Multipliers.technicalSpecifications
  jsMinNum w (jsMinNum (w * 1.5)
    (jsRoundNum (jsMulNum (some (fractionScore specs.countScore w)) m)))

/-- Dimensions points: flat 1.3x boost under the `need` context, capped. -/
def dimensionsPoints (context : String) (details : ProductDetailsFacts) : ℚ :=
  let w := FW_contentQuality.dimensions
  let base := binScore details.hasDimensions w
  min w (if context = "need" then jsRound (base * 1.3) else base)

/-- Warranty points: context multiplier, capped at the factor weight. -/
def warrantyPoints (m : Multipliers) (details : ProductDetailsFacts) : ℚ :=
  let w := FW_contentQuality.warrantyInfo
  min w (jsRound (binScore details.hasWarranty w * m.warrantyInfo))

/-- Compatibility points: context multiplier, capped at 2x the factor
weight (the documented `need`-context overshoot). -/
def compatibilityPoints (m : Multipliers) (details : ProductDetailsFacts) : ℚ :=
  let w := FW_contentQuality.compatibilityInfo
  min (w * 2) (jsRound (binScore details.hasCompatibility w * m.compatibilityInfo))

/-- H1 points: full for a single H1, half for multiple H1s, else 0. -/
def h1Points (headings : HeadingsFacts) : ℚ :=
  let w := FW_contentStructure.h1Presence
  if headings.hasSingleH1 then w else if headings.hasH1 then w * 0.5 else 0

/-- Heading-hierarchy points: full if valid, else half. -/
def hierarchyPoints (headings : HeadingsFacts) : ℚ :=
  let w := FW_contentStructure.headingHierarchy
  if headings.hierarchyValid then w else w * 0.5

/-- Image alt-coverage points: coverage ratio linearly scaled. -/
def allAltPoints (images : PageImagesFacts) : ℚ :=
  jsRound (images.altCoverage * FW_contentStructure.allImagesAlt)

/-- JS-dependency points: sub-score fraction, but FULL weight when the
sub-score is missing or zero (`js.score ? … : weights.jsDependency`). -/
def jsDependencyPoints (js : JsDependencyFacts) : ℚ :=
  let w := FW_contentStructure.jsDependency
  if js.score ≠ 0 then jsRound ((js.score / 100) * w) else w

/-- Review-count points: sub-score fraction, context multiplier, capped
at 1.5x the factor weight (documented overshoot). -/
def reviewCountPoints (m : Multipliers) (reviews : ReviewsFacts) : ℚ :=
  let w := FW_authorityTrust.reviewCount
  min (w * 1.5) (jsRound (fractionScore reviews.countScore w * m.reviewCount))

/-- Average-rating points: sub-score fraction, context multiplier,
capped at the factor weight. -/
def averageRatingPoints (m : Multipliers) (reviews : ReviewsFacts) : ℚ :=
  let w := FW_authorityTrust.averageRating
  min w (jsRound (fractionScore reviews.ratingScore w * m.reviewRating))

/-- Review-recency points: full unless `hasRecentReviews` is literally
`false` (`reviews.hasRecentReviews !== false`), else half. -/
def recencyPoints (reviews : ReviewsFacts) : ℚ :=
  let w := FW_authorityTrust.reviewRecency
  if reviews.hasRecentReviews ≠ some false then w else w * 0.5

/-- Certifications points: sub-score fraction, context multiplier, capped
at 1.6x the factor weight (documented overshoot). -/
def certificationsPoints (m : Multipliers) (certs : CertificationsFacts) : ℚ :=
  let w := FW_authorityTrust.certifications
  min (w * 1.6) (jsRound (fractionScore certs.score w * m.certifications))

/-! ## The five category scorers (`ScoringEngine` methods) -/

/-- `ScoringEngine.scoreStructuredData` (25% weight): eight binary
schema-presence factors, no clamp (weights sum to 100). -/
def scoreStructuredData (data : StructuredDataFacts) : CategoryScore :=
  let weights := FW_structuredData
  let hasProduct := data.schemas.product
  let hasOffer := data.schemas.offer
  let hasRating := data.schemas.aggregateRating
  let hasReviews := data.schemas.reviews > 0
  let hasFaq : Bool := match data.schemas.faq with
    | some questionCount => decide (questionCount > 0)
    | none => false
  let hasBreadcrumb := data.schemas.breadcrumb
  let hasOrg := data.schemas.organization || data.schemas.brand
  let hasImageSchema := data.schemas.images > 0
  { score := binScore hasProduct weights.productSchema + binScore hasOffer weights.offerSchema +
      binScore hasRating weights.aggregateRating + binScore hasReviews weights.reviewSchema +
      binScore hasFaq weights.faqSchema + binScore hasBreadcrumb weights.breadcrumbSchema +
      binScore hasOrg weights.organizationSchema + binScore hasImageSchema weights.imageSchema
    maxScore := 100
    factors :=
      [ { name := "Product Schema", status := if hasProduct then .pass else .fail,
          points := binScore hasProduct weights.productSchema,
          maxPoints := weights.productSchema, critical := true }
      , { name := "Offer Schema", status := if hasOffer then .pass else .fail,
          points := binScore hasOffer weights.offerSchema,
          maxPoints := weights.offerSchema, critical := true }
      , { name := "AggregateRating Schema", status := if hasRating then .pass else .fail,
          points := binScore hasRating weights.aggregateRating,
          maxPoints := weights.aggregateRating }
      , { name := "Review Schema", status := if hasReviews then .pass else .fail,
          points := binScore hasReviews weights.reviewSchema,
          maxPoints := weights.reviewSchema }
      , { name := "FAQ Schema", status := if hasFaq then .pass else .fail,
          points := binScore hasFaq weights.faqSchema, maxPoints := weights.faqSchema }
      , { name := "Breadcrumb Schema", status := if hasBreadcrumb then .pass else .fail,
          points := binScore hasBreadcrumb weights.breadcrumbSchema,
          maxPoints := weights.breadcrumbSchema }
      , { name := "Organization/Brand Schema", status := if hasOrg then .pass else .fail,
          points := binScore hasOrg weights.organizationSchema,
          maxPoints := weights.organizationSchema }
      , { name := "ImageObject Schema", status := if hasImageSchema then .pass else .fail,
          points := binScore hasImageSchema weights.imageSchema,
          maxPoints := weights.imageSchema } ]
    weight := CATEGORY_WEIGHTS.structuredData
    categoryName := "Structured Data" }

/-- The og:image format branch of `scoreProtocolMeta` (score and status):
WebP = FAIL, JPEG/PNG = PASS, verified-but-unknown = half points with a
warning; with no verification, inference from the URL (WebP in URL = 0 +
fail, recognized raster extension = full points, else 0 + unknown). -/
def ogImageFormat (og : OpenGraphFacts)
    (imageVerification : Option ImageVerificationResult) : ℚ × Status :=
  let weights := FW_protocolMeta
  match imageVerification with
  | some v =>
    if v.isWebP then (0, .fail)
    else if v.isValidFormat then (weights.ogImageFormat, .pass)
    else (weights.ogImageFormat / 2, .warning)
  | none =>
    if og.image ≠ "" then
      let url := strToLower og.image
      if strEndsWith url ".webp" || strHasSubstr url ".webp?" then (0, .fail)
      else if matchesRasterFormat url then (weights.ogImageFormat, .pass)
      else (0, .unknown)
    else (0, .unknown)

/-- `ScoringEngine.scoreProtocolMeta` (20% weight), including the
three-way og:image format logic and the URL fallback heuristic. -/
def scoreProtocolMeta (data : Option MetaTagsFacts)
    (imageVerification : Option ImageVerificationResult) : CategoryScore :=
  let weights := FW_protocolMeta
  let og := (data.bind MetaTagsFacts.openGraph).getD {}
  let twitter := (data.bind MetaTagsFacts.twitterCards).getD {}
  let hasOgImage := og.image ≠ ""
  -- og:image format: WebP = FAIL, JPEG/PNG = PASS
  let imageFormat := ogImageFormat og imageVerification
  let hasOgTitle := og.title ≠ ""
  let titleLength := og.title.length
  let titleOptimal := titleLength > 0 ∧ titleLength ≤ 60
  let hasOgDesc := og.description ≠ ""
  let descLength := og.description.length
  let descOptimal := descLength ≥ 100 ∧ descLength ≤ 200
  let isProductType := og.type = "product" ∨ og.type = "og:product"
  let hasTwitterCard := twitter.card ≠ ""
  let isLargeImage := twitter.card = "summary_large_image"
  let hasTwitterImage := twitter.image ≠ ""
  let canonicalFacts := (data.bind MetaTagsFacts.canonical).getD {}
  let hasCanonical := canonicalFacts.present
  let canonicalMatches := canonicalFacts.matchesCurrentUrl
  let metaDesc := ((data.bind MetaTagsFacts.standard).getD {}).description
  let hasMetaDesc := metaDesc ≠ ""
  let metaDescLength := metaDesc.length
  let metaDescOptimal := metaDescLength ≥ 120 ∧ metaDescLength ≤ 160
  let isBlocked := ((data.bind MetaTagsFacts.robots).getD {}).isBlocked
  { score := binScore hasOgImage weights.ogImage + imageFormat.1 +
      presentOptimalScore hasOgTitle titleOptimal weights.ogTitle +
      presentOptimalScore hasOgDesc descOptimal weights.ogDescription +
      binScore isProductType weights.ogType +
      presentOptimalScore hasTwitterCard isLargeImage weights.twitterCard +
      binScore hasTwitterImage weights.twitterImage +
      presentOptimalScore hasCanonical canonicalMatches weights.canonical +
      presentOptimalScore hasMetaDesc metaDescOptimal weights.metaDescription +
      gatedScore isBlocked weights.robotsAllowsIndex
    maxScore := 100
    factors :=
      [ { name := "og:image Present", status := if hasOgImage then .pass else .fail,
          points := binScore hasOgImage weights.ogImage, maxPoints := weights.ogImage,
          critical := true }
      , { name := "og:image Format", status := imageFormat.2,
          points := imageFormat.1, maxPoints := weights.ogImageFormat, critical := true }
      , { name := "og:title",
          status := if hasOgTitle then (if titleOptimal then .pass else .warning) else .fail,
          points := presentOptimalScore hasOgTitle titleOptimal weights.ogTitle,
          maxPoints := weights.ogTitle }
      , { name := "og:description",
          status := if hasOgDesc then (if descOptimal then .pass else .warning) else .fail,
          points := presentOptimalScore hasOgDesc descOptimal weights.ogDescription,
          maxPoints := weights.ogDescription }
      , { name := "og:type = product", status := if isProductType then .pass else .fail,
          points := binScore isProductType weights.ogType, maxPoints := weights.ogType }
      , { name := "Twitter Card",
          status := if hasTwitterCard then (if isLargeImage then .pass else .warning) else .fail,
          points := presentOptimalScore hasTwitterCard isLargeImage weights.twitterCard,
          maxPoints := weights.twitterCard }
      , { name := "Twitter Image", status := if hasTwitterImage then .pass else .fail,
          points := binScore hasTwitterImage weights.twitterImage,
          maxPoints := weights.twitterImage }
      , { name := "Canonical URL",
          status := if hasCanonical then (if canonicalMatches then .pass else .warning) else .fail,
          points := presentOptimalScore hasCanonical canonicalMatches weights.canonical,
          maxPoints := weights.canonical }
      , { name := "Meta Description",
          status := if hasMetaDesc then (if metaDescOptimal then .pass else .warning) else .fail,
          points := presentOptimalScore hasMetaDesc metaDescOptimal weights.metaDescription,
          maxPoints := weights.metaDescription }
      , { name := "Robots Allows Indexing", status := if isBlocked then .fail else .pass,
          points := gatedScore isBlocked weights.robotsAllowsIndex,
          maxPoints := weights.robotsAllowsIndex, critical := isBlocked } ]
    weight := CATEGORY_WEIGHTS.protocolMeta
    categoryName := "Protocol & Meta Compliance" }

/-- `ScoringEngine.scoreContentQuality` (25% weight): contextual factors
use the multiplier table chosen by the engine constructor; the category
total is clamped with `Math.min(100, rawScore)`. -/
def scoreContentQuality (context : String) (data : Option ContentQualityFacts) :
    CategoryScore :=
  let multipliers := engineMultipliers context
  let weights := FW_contentQuality
  let desc := (data.bind ContentQualityFacts.description).getD {}
  let specs := (data.bind ContentQualityFacts.specifications).getD {}
  let features := (data.bind ContentQualityFacts.features).getD {}
  let faq := (data.bind ContentQualityFacts.faq).getD {}
  let details := (data.bind ContentQualityFacts.productDetails).getD {}
  let wordCount := desc.wordCount
  let descScore := fractionScore desc.lengthScore weights.descriptionLength
  let descQualityScore := descQualityPoints multipliers desc
  let specCount := specs.count
  let featureCount := features.count
  let featureScore := fractionScore features.countScore weights.featureCount
  let faqCount := faq.count
  let faqScore := fractionScore faq.countScore weights.faqPresence
  let materialsScore := binScore details.hasMaterials weights.materials
  let careScore := binScore details.hasCareInstructions weights.careInstructions
  let rawScore := descScore + descQualityScore + specificationsPoints multipliers specs +
      featureScore + faqScore + dimensionsPoints context details + materialsScore +
      careScore + warrantyPoints multipliers details + compatibilityPoints multipliers details
  { score := min 100 rawScore
    maxScore := 100
    factors :=
      [ { name := "Description Length",
          status := if wordCount ≥ 100 then .pass else if wordCount ≥ 50 then .warning
            else .fail,
          points := descScore, maxPoints := weights.descriptionLength }
      , { name := "Description Quality",
          status := if descQualityScore ≥ weights.descriptionQuality * 0.7 then .pass
            else .warning,
          points := descQualityScore, maxPoints := weights.descriptionQuality,
          contextual := true }
      , { name := "Specifications",
          status := if specCount ≥ 5 then .pass else if specCount ≥ 3 then .warning
            else .fail,
          points := specificationsPoints multipliers specs,
          maxPoints := weights.specificationCount, contextual := true }
      , { name := "Features List",
          status := if featureCount ≥ 5 then .pass else if featureCount ≥ 3 then .warning
            else .fail,
          points := featureScore, maxPoints := weights.featureCount }
      , { name := "FAQ Section",
          status := if faqCount ≥ 3 then .pass else if faqCount > 0 then .warning
            else .fail,
          points := faqScore, maxPoints := weights.faqPresence }
      , { name := "Dimensions/Size",
          status := if details.hasDimensions then .pass else .fail,
          points := dimensionsPoints context details,
          maxPoints := weights.dimensions, contextual := context == "need" }
      , { name := "Materials", status := if details.hasMaterials then .pass else .fail,
          points := materialsScore, maxPoints := weights.materials }
      , { name := "Care Instructions",
          status := if details.hasCareInstructions then .pass else .fail,
          points := careScore, maxPoints := weights.careInstructions }
      , { name := "Warranty Information",
          status := if details.hasWarranty then .pass else .fail,
          points := warrantyPoints multipliers details,
          maxPoints := weights.warrantyInfo, contextual := true }
      , { name := "Compatibility Information",
          status := if details.hasCompatibility then .pass else .fail,
          points := compatibilityPoints multipliers details,
          maxPoints := weights.compatibilityInfo, contextual := true } ]
    weight := CATEGORY_WEIGHTS.contentQuality
    categoryName := "Content Depth & Quality" }

/-- `ScoringEngine.scoreContentStructure` (15% weight). -/
def scoreContentStructure (data : Option ContentStructureFacts) : CategoryScore :=
  let weights := FW_contentStructure
  let headings := (data.bind ContentStructureFacts.headings).getD {}
  let semantic := (data.bind ContentStructureFacts.semanticHTML).getD {}
  let ratioFacts := (data.bind ContentStructureFacts.contentRatio).getD {}
  let tables := (data.bind ContentStructureFacts.tables).getD {}
  let lists := (data.bind ContentStructureFacts.lists).getD {}
  let a11y := (data.bind ContentStructureFacts.accessibility).getD {}
  let images := (data.bind ContentStructureFacts.images).getD {}
  let js := (data.bind ContentStructureFacts.jsDependency).getD {}
  let semanticScore := fractionScore semantic.score weights.semanticHTML
  let ratioScore := fractionScore ratioFacts.score weights.contentRatioWeight
  let tableScore := fractionScore tables.score weights.tableStructure
  let listScore := fractionScore lists.score weights.listStructure
  let ariaScore := binScore (a11y.ariaLabels > 0) weights.ariaLabels
  let primaryHasAlt := (images.primaryImage.getD {}).hasAlt
  let primaryAltScore := binScore primaryHasAlt weights.primaryImageAlt
  let rawScore := h1Points headings + hierarchyPoints headings + semanticScore + ratioScore +
      tableScore + listScore + ariaScore + primaryAltScore + allAltPoints images +
      jsDependencyPoints js
  { score := min 100 rawScore
    maxScore := 100
    factors :=
      [ { name := "H1 Heading",
          status := if headings.hasSingleH1 then .pass
            else if headings.hasH1 then .warning else .fail,
          points := h1Points headings, maxPoints := weights.h1Presence }
      , { name := "Heading Hierarchy",
          status := if headings.hierarchyValid then .pass else .warning,
          points := hierarchyPoints headings, maxPoints := weights.headingHierarchy }
      , { name := "Semantic HTML",
          status := if semantic.hasMain then .pass else if semantic.hasArticle then .warning
            else .fail,
          points := semanticScore, maxPoints := weights.semanticHTML }
      , { name := "Content-to-Chrome Ratio",
          status := if ratioFacts.ratio ≥ 0.5 then .pass
            else if ratioFacts.ratio ≥ 0.3 then .warning else .fail,
          points := ratioScore, maxPoints := weights.contentRatioWeight }
      , { name := "Table Structure",
          status := if tables.hasProperTables then .pass
            else if tables.tableCount > 0 then .warning else .fail,
          points := tableScore, maxPoints := weights.tableStructure }
      , { name := "List Structure",
          status := if lists.hasProperLists then .pass else .fail,
          points := listScore, maxPoints := weights.listStructure }
      , { name := "ARIA Labels",
          status := if a11y.ariaLabels > 0 then .pass else .fail,
          points := ariaScore, maxPoints := weights.ariaLabels }
      , { name := "Primary Image Alt Text",
          status := if primaryHasAlt then .pass else .fail,
          points := primaryAltScore, maxPoints := weights.primaryImageAlt }
      , { name := "Image Alt Coverage",
          status := if images.altCoverage ≥ 0.9 then .pass
            else if images.altCoverage ≥ 0.5 then .warning else .fail,
          points := allAltPoints images, maxPoints := weights.allImagesAlt }
      , { name := "JavaScript Dependency",
          status := if js.dependencyLevel = "low" then .pass
            else if js.dependencyLevel = "medium" then .warning else .fail,
          points := jsDependencyPoints js, maxPoints := weights.jsDependency } ]
    weight := CATEGORY_WEIGHTS.contentStructure
    categoryName := "Content Structure & Accessibility" }

/-- `ScoringEngine.scoreAuthorityTrust` (15% weight): review count and
certifications use the documented overshoot caps (1.5x, 1.6x). -/
def scoreAuthorityTrust (context : String) (data : Option TrustSignalsFacts) :
    CategoryScore :=
  let multipliers := engineMultipliers context
  let weights := FW_authorityTrust
  let reviews := (data.bind TrustSignalsFacts.reviews).getD {}
  let brand := (data.bind TrustSignalsFacts.brand).getD {}
  let certs := (data.bind TrustSignalsFacts.certifications).getD {}
  let awards := (data.bind TrustSignalsFacts.awards).getD {}
  let depthScore := fractionScore reviews.depthScore weights.reviewDepth
  let brandScore := fractionScore brand.score weights.brandClarity
  let awardScore := binScore (awards.count > 0) weights.awards
  let rawScore := reviewCountPoints multipliers reviews +
      averageRatingPoints multipliers reviews + recencyPoints reviews + depthScore +
      brandScore + certificationsPoints multipliers certs + awardScore
  { score := min 100 rawScore
    maxScore := 100
    factors :=
      [ { name := "Review Count",
          status := if reviews.count ≥ 50 then .pass else if reviews.count ≥ 10 then .warning
            else .fail,
          points := reviewCountPoints multipliers reviews,
          maxPoints := weights.reviewCount, contextual := true }
      , { name := "Average Rating",
          status := if reviews.averageRating ≥ 4 then .pass
            else if reviews.averageRating ≥ 3.5 then .warning else .fail,
          points := averageRatingPoints multipliers reviews,
          maxPoints := weights.averageRating, contextual := true }
      , { name := "Review Recency",
          status := if reviews.hasRecentReviews ≠ some false then .pass else .warning,
          points := recencyPoints reviews, maxPoints := weights.reviewRecency }
      , { name := "Review Depth",
          status := if reviews.averageReviewLength ≥ 100 then .pass
            else if reviews.averageReviewLength ≥ 50 then .warning else .fail,
          points := depthScore, maxPoints := weights.reviewDepth }
      , { name := "Brand Clarity",
          status := if brand.clarity = "excellent" then .pass
            else if brand.clarity = "good" then .warning else .fail,
          points := brandScore, maxPoints := weights.brandClarity }
      , { name := "Certifications",
          status := if certs.count > 0 then .pass else .fail,
          points := certificationsPoints multipliers certs,
          maxPoints := weights.certifications, contextual := true }
      , { name := "Awards", status := if awards.count > 0 then .pass else .fail,
          points := awardScore, maxPoints := weights.awards } ]
    weight := CATEGORY_WEIGHTS.authorityTrust
    categoryName := "Authority & Trust Signals" }

/-! ## Aggregation (`ScoringEngine.calculateScore`) -/

/-- The `categoryScores` map of a `ScoreResult` (fixed keys). -/
structure CategoryScores where
  structuredData : CategoryScore
  protocolMeta : CategoryScore
  contentQuality : CategoryScore
  contentStructure : CategoryScore
  authorityTrust : CategoryScore
deriving DecidableEq, Repr

/-- `ScoreResult` (the IO-derived `timestamp` field is not modelled). -/
structure ScoreResult where
  totalScore : ℚ
  grade : String
  gradeDescription : String
  context : String
  categoryScores : CategoryScores
deriving DecidableEq, Repr

/-- `new ScoringEngine(context).calculateScore(extractedData,
imageVerification)`: the five category scores, the weighted total rounded
once, and the grade. -/
def calculateScore (context : String) (extractedData : ExtractedPageData)
    (imageVerification : Option ImageVerificationResult := none) : ScoreResult :=
  let categoryScores : CategoryScores :=
    { structuredData := scoreStructuredData extractedData.structuredData
      protocolMeta := scoreProtocolMeta extractedData.metaTags imageVerification
      contentQuality := scoreContentQuality context extractedData.contentQuality
      contentStructure := scoreContentStructure extractedData.contentStructure
      authorityTrust := scoreAuthorityTrust context extractedData.trustSignals }
  let totalScore := jsRound (
    categoryScores.structuredData.score * CATEGORY_WEIGHTS.structuredData +
    categoryScores.protocolMeta.score * CATEGORY_WEIGHTS.protocolMeta +
    categoryScores.contentQuality.score * CATEGORY_WEIGHTS.contentQuality +
    categoryScores.contentStructure.score * CATEGORY_WEIGHTS.contentStructure +
    categoryScores.authorityTrust.score * CATEGORY_WEIGHTS.authorityTrust)
  let grade := getGrade totalScore
  { totalScore := totalScore
    grade := grade
    gradeDescription := getGradeDescription grade
    context := context
    categoryScores := categoryScores }

/-- All factor records of a score result, in evaluation order. -/
def CategoryScores.allFactors (cs : CategoryScores) : List Factor :=
  cs.structuredData.factors ++ cs.protocolMeta.factors ++ cs.contentQuality.factors ++
    cs.contentStructure.factors ++ cs.authorityTrust.factors

/-! ## Validity of the input record

`ExtractedPageData` carries collector-supplied sub-scores documented as
`0`–`100` (and `altCoverage`, a ratio in `[0, 1]`).  These predicates
state exactly those documented ranges on the slices each scorer reads. -/

def ValidContentQuality (data : Option ContentQualityFacts) : Prop :=
  (0 ≤ ((data.bind ContentQualityFacts.description).getD {}).lengthScore ∧
    ((data.bind ContentQualityFacts.description).getD {}).lengthScore ≤ 100) ∧
  (0 ≤ ((data.bind ContentQualityFacts.specifications).getD {}).countScore ∧
    ((data.bind ContentQualityFacts.specifications).getD {}).countScore ≤ 100) ∧
  (0 ≤ ((data.bind ContentQualityFacts.features).getD {}).countScore ∧
    ((data.bind ContentQualityFacts.features).getD {}).countScore ≤ 100) ∧
  (0 ≤ ((data.bind ContentQualityFacts.faq).getD {}).countScore ∧
    ((data.bind ContentQualityFacts.faq).getD {}).countScore ≤ 100)

def ValidContentStructure (data : Option ContentStructureFacts) : Prop :=
  (0 ≤ ((data.bind ContentStructureFacts.semanticHTML).getD {}).score ∧
    ((data.bind ContentStructureFacts.semanticHTML).getD {}).score ≤ 100) ∧
  (0 ≤ ((data.bind ContentStructureFacts.contentRatio).getD {}).score ∧
    ((data.bind ContentStructureFacts.contentRatio).getD {}).score ≤ 100) ∧
  (0 ≤ ((data.bind ContentStructureFacts.tables).getD {}).score ∧
    ((data.bind ContentStructureFacts.tables).getD {}).score ≤ 100) ∧
  (0 ≤ ((data.bind ContentStructureFacts.lists).getD {}).score ∧
    ((data.bind ContentStructureFacts.lists).getD {}).score ≤ 100) ∧
  (0 ≤ ((data.bind ContentStructureFacts.images).getD {}).altCoverage ∧
    ((data.bind ContentStructureFacts.images).getD {}).altCoverage ≤ 1) ∧
  (0 ≤ ((data.bind ContentStructureFacts.jsDependency).getD {}).score ∧
    ((data.bind ContentStructureFacts.jsDependency).getD {}).score ≤ 100)

def ValidTrustSignals (data : Option TrustSignalsFacts) : Prop :=
  (0 ≤ ((data.bind TrustSignalsFacts.reviews).getD {}).countScore ∧
    ((data.bind TrustSignalsFacts.reviews).getD {}).countScore ≤ 100) ∧
  (0 ≤ ((data.bind TrustSignalsFacts.reviews).getD {}).ratingScore ∧
    ((data.bind TrustSignalsFacts.reviews).getD {}).ratingScore ≤ 100) ∧
  (0 ≤ ((data.bind TrustSignalsFacts.reviews).getD {}).depthScore ∧
    ((data.bind TrustSignalsFacts.reviews).getD {}).depthScore ≤ 100) ∧
  (0 ≤ ((data.bind TrustSignalsFacts.brand).getD {}).score ∧
    ((data.bind TrustSignalsFacts.brand).getD {}).score ≤ 100) ∧
  (0 ≤ ((data.bind TrustSignalsFacts.certifications).getD {}).score ∧
    ((data.bind TrustSignalsFacts.certifications).getD {}).score ≤ 100)

/-- The documented ranges of all collector-supplied sub-scores. -/
def ValidExtractedPageData (data : ExtractedPageData) : Prop :=
  ValidContentQuality data.contentQuality ∧
  ValidContentStructure data.contentStructure ∧
  ValidTrustSignals data.trustSignals

/-! ## Bound helper lemmas -/

theorem jsRound_nonneg {x : ℚ} (h : 0 ≤ x) : 0 ≤ jsRound x := by
  rw [jsRound_eq]
  exact_mod_cast Int.floor_nonneg.mpr (by linarith)

theorem jsRound_le {x : ℚ} {n : ℤ} (h : x ≤ (n : ℚ)) : jsRound x ≤ (n : ℚ) := by
  rw [jsRound_eq]
  have hz : ⌊x + 1/2⌋ ≤ n := Int.floor_le_iff.mpr (by linarith)
  exact_mod_cast hz

theorem iteQ_nonneg {c : Prop} [Decidable c] {a b : ℚ} (ha : 0 ≤ a) (hb : 0 ≤ b) :
    0 ≤ if c then a else b := by
  split_ifs <;> assumption

theorem iteQ_le {c : Prop} [Decidable c] {a b m : ℚ} (ha : a ≤ m) (hb : b ≤ m) :
    (if c then a else b) ≤ m := by
  split_ifs <;> assumption

/-- The multiplier tables only hold values in `[0.4, 2]`, whatever the
context string. Stated for the fields the scorers read. -/
theorem engineMultipliers_bounds (context : String) :
    (0 ≤ (engineMultipliers context).emotionalBenefitCopy ∧
      (engineMultipliers context).emotionalBenefitCopy ≤ 2) ∧
    (0 ≤ (engineMultipliers context).technicalSpecifications ∧
      (engineMultipliers context).technicalSpecifications ≤ 2) ∧
    (0 ≤ (engineMultipliers context).compatibilityInfo ∧
      (engineMultipliers context).compatibilityInfo ≤ 2) ∧
    (0 ≤ (engineMultipliers context).certifications ∧
      (engineMultipliers context).certifications ≤ 2) ∧
    (0 ≤ (engineMultipliers context).reviewCount ∧
      (engineMultipliers context).reviewCount ≤ 2) ∧
    (0 ≤ (engineMultipliers context).reviewRating ∧
      (engineMultipliers context).reviewRating ≤ 2) ∧
    (0 ≤ (engineMultipliers context).warrantyInfo ∧
      (engineMultipliers context).warrantyInfo ≤ 2) := by
  unfold engineMultipliers
  split_ifs <;>
    norm_num [CONTEXT_MULTIPLIERS_want, CONTEXT_MULTIPLIERS_need, CONTEXT_MULTIPLIERS_hybrid]

theorem binScore_bounds (c : Prop) [Decidable c] {w : ℚ} (hw : 0 ≤ w) :
    0 ≤ binScore c w ∧ binScore c w ≤ w := by
  unfold binScore
  split_ifs
  · exact ⟨hw, le_refl w⟩
  · exact ⟨le_refl 0, hw⟩

theorem gatedScore_bounds (c : Prop) [Decidable c] {w : ℚ} (hw : 0 ≤ w) :
    0 ≤ gatedScore c w ∧ gatedScore c w ≤ w := by
  unfold gatedScore
  split_ifs
  · exact ⟨le_refl 0, hw⟩
  · exact ⟨hw, le_refl w⟩

theorem presentOptimalScore_bounds (p o : Prop) [Decidable p] [Decidable o] {w : ℚ}
    (hw : 0 ≤ w) : 0 ≤ presentOptimalScore p o w ∧ presentOptimalScore p o w ≤ w := by
  unfold presentOptimalScore
  split_ifs
  · exact ⟨hw, le_refl w⟩
  · constructor <;> linarith
  · exact ⟨le_refl 0, hw⟩

theorem fractionScore_bounds (n : ℤ) {s w : ℚ} (h0 : 0 ≤ s) (h1 : s ≤ 100)
    (hw : w = (n : ℚ)) (hw0 : 0 ≤ w) :
    0 ≤ fractionScore s w ∧ fractionScore s w ≤ w := by
  unfold fractionScore
  split_ifs
  · refine ⟨jsRound_nonneg (mul_nonneg (div_nonneg h0 (by norm_num)) hw0), ?_⟩
    have hx : (s / 100) * w ≤ w := by nlinarith
    rw [hw] at hx ⊢
    exact jsRound_le hx
  · exact ⟨le_refl 0, hw0⟩

theorem descQualityPoints_bounds (m : Multipliers) (h1 : 0 ≤ m.emotionalBenefitCopy)
    (h2 : 0 ≤ m.technicalSpecifications) (desc : DescriptionFacts) :
    0 ≤ descQualityPoints m desc ∧ descQualityPoints m desc ≤ 10 := by
  simp only [descQualityPoints, FW_contentQuality]
  constructor
  · refine le_min (by norm_num) (jsRound_nonneg (add_nonneg ?_ ?_))
    · exact iteQ_nonneg (mul_nonneg (by norm_num) h1) (le_refl 0)
    · exact iteQ_nonneg (mul_nonneg (by norm_num) h2) (le_refl 0)
  · exact min_le_left _ _

theorem specificationsPoints_bounds (m : Multipliers) (hm : 0 ≤ m.technicalSpecifications)
    (specs : SpecificationsFacts) (h0 : 0 ≤ specs.countScore) (h1 : specs.countScore ≤ 100) :
    0 ≤ specificationsPoints m specs ∧ specificationsPoints m specs ≤ 10 := by
  simp only [specificationsPoints, FW_contentQuality]
  constructor
  · refine le_min (by norm_num) (le_min (by norm_num) (jsRound_nonneg (mul_nonneg ?_ hm)))
    exact (fractionScore_bounds 10 h0 h1 (by norm_num) (by norm_num)).1
  · exact min_le_left _ _

theorem dimensionsPoints_bounds (context : String) (details : ProductDetailsFacts) :
    0 ≤ dimensionsPoints context details ∧ dimensionsPoints context details ≤ 5 := by
  simp only [dimensionsPoints, FW_contentQuality]
  constructor
  · refine le_min (by norm_num) ?_
    split_ifs
    · exact jsRound_nonneg (mul_nonneg (binScore_bounds _ (by norm_num)).1 (by norm_num))
    · exact (binScore_bounds _ (by norm_num)).1
  · exact min_le_left _ _

theorem warrantyPoints_bounds (m : Multipliers) (hm : 0 ≤ m.warrantyInfo)
    (details : ProductDetailsFacts) :
    0 ≤ warrantyPoints m details ∧ warrantyPoints m details ≤ 7 := by
  simp only [warrantyPoints, FW_contentQuality]
  constructor
  · exact le_min (by norm_num)
      (jsRound_nonneg (mul_nonneg (binScore_bounds _ (by norm_num)).1 hm))
  · exact min_le_left _ _

theorem compatibilityPoints_bounds (m : Multipliers) (hm : 0 ≤ m.compatibilityInfo)
    (details : ProductDetailsFacts) :
    0 ≤ compatibilityPoints m details ∧ compatibilityPoints m details ≤ 20 := by
  simp only [compatibilityPoints, FW_contentQuality]
  constructor
  · exact le_min (by norm_num)
      (jsRound_nonneg (mul_nonneg (binScore_bounds _ (by norm_num)).1 hm))
  · exact le_trans (min_le_left _ _) (by norm_num)

/-- Under a multiplier at most 1 (the `want` and `hybrid` tables), the
compatibility factor cannot overshoot its nominal weight. -/
theorem compatibilityPoints_le_of_le_one (m : Multipliers) (hm0 : 0 ≤ m.compatibilityInfo)
    (hm1 : m.compatibilityInfo ≤ 1) (details : ProductDetailsFacts) :
    compatibilityPoints m details ≤ 10 := by
  simp only [compatibilityPoints, FW_contentQuality]
  refine le_trans (min_le_right _ _) ?_
  have hb := binScore_bounds details.hasCompatibility (w := (10:ℚ)) (by norm_num)
  have hx : binScore details.hasCompatibility (10:ℚ) * m.compatibilityInfo ≤ ((10:ℤ) : ℚ) := by
    push_cast
    nlinarith [hb.1, hb.2]
  exact_mod_cast jsRound_le hx

theorem h1Points_bounds (headings : HeadingsFacts) :
    0 ≤ h1Points headings ∧ h1Points headings ≤ 15 := by
  simp only [h1Points, FW_contentStructure]
  split_ifs <;> norm_num

theorem hierarchyPoints_bounds (headings : HeadingsFacts) :
    0 ≤ hierarchyPoints headings ∧ hierarchyPoints headings ≤ 12 := by
  simp only [hierarchyPoints, FW_contentStructure]
  split_ifs <;> norm_num

theorem allAltPoints_bounds (images : PageImagesFacts) (h0 : 0 ≤ images.altCoverage)
    (h1 : images.altCoverage ≤ 1) :
    0 ≤ allAltPoints images ∧ allAltPoints images ≤ 8 := by
  simp only [allAltPoints, FW_contentStructure]
  refine ⟨jsRound_nonneg (mul_nonneg h0 (by norm_num)), ?_⟩
  have hx : images.altCoverage * 8 ≤ ((8:ℤ) : ℚ) := by push_cast; nlinarith
  exact_mod_cast jsRound_le hx

theorem jsDependencyPoints_bounds (js : JsDependencyFacts) (h0 : 0 ≤ js.score)
    (h1 : js.score ≤ 100) :
    0 ≤ jsDependencyPoints js ∧ jsDependencyPoints js ≤ 10 := by
  simp only [jsDependencyPoints, FW_contentStructure]
  split_ifs
  · refine ⟨jsRound_nonneg (mul_nonneg (div_nonneg h0 (by norm_num)) (by norm_num)), ?_⟩
    have hx : (js.score / 100) * 10 ≤ ((10:ℤ) : ℚ) := by push_cast; nlinarith
    exact_mod_cast jsRound_le hx
  · norm_num

theorem reviewCountPoints_bounds (m : Multipliers) (hm : 0 ≤ m.reviewCount)
    (reviews : ReviewsFacts) (h0 : 0 ≤ reviews.countScore) (h1 : reviews.countScore ≤ 100) :
    0 ≤ reviewCountPoints m reviews ∧ reviewCountPoints m reviews ≤ 25 * 1.5 := by
  simp only [reviewCountPoints, FW_authorityTrust]
  constructor
  · refine le_min (by norm_num) (jsRound_nonneg (mul_nonneg ?_ hm))
    exact (fractionScore_bounds 25 h0 h1 (by norm_num) (by norm_num)).1
  · exact min_le_left _ _

theorem averageRatingPoints_bounds (m : Multipliers) (hm : 0 ≤ m.reviewRating)
    (reviews : ReviewsFacts) (h0 : 0 ≤ reviews.ratingScore) (h1 : reviews.ratingScore ≤ 100) :
    0 ≤ averageRatingPoints m reviews ∧ averageRatingPoints m reviews ≤ 20 := by
  simp only [averageRatingPoints, FW_authorityTrust]
  constructor
  · refine le_min (by norm_num) (jsRound_nonneg (mul_nonneg ?_ hm))
    exact (fractionScore_bounds 20 h0 h1 (by norm_num) (by norm_num)).1
  · exact min_le_left _ _

theorem recencyPoints_bounds (reviews : ReviewsFacts) :
    0 ≤ recencyPoints reviews ∧ recencyPoints reviews ≤ 15 := by
  simp only [recencyPoints, FW_authorityTrust]
  split_ifs <;> norm_num

theorem certificationsPoints_bounds (m : Multipliers) (hm : 0 ≤ m.certifications)
    (certs : CertificationsFacts) (h0 : 0 ≤ certs.score) (h1 : certs.score ≤ 100) :
    0 ≤ certificationsPoints m certs ∧ certificationsPoints m certs ≤ 10 * 1.6 := by
  simp only [certificationsPoints, FW_authorityTrust]
  constructor
  · refine le_min (by norm_num) (jsRound_nonneg (mul_nonneg ?_ hm))
    exact (fractionScore_bounds 10 h0 h1 (by norm_num) (by norm_num)).1
  · exact min_le_left _ _

theorem ogImageFormat_bounds (og : OpenGraphFacts)
    (iv : Option ImageVerificationResult) :
    0 ≤ (ogImageFormat og iv).1 ∧ (ogImageFormat og iv).1 ≤ 15 := by
  rcases iv with _ | v <;>
    · simp only [ogImageFormat, FW_protocolMeta]
      split_ifs <;> norm_num

/-! ## Per-scorer score bounds -/

theorem scoreStructuredData_score_bounds (data : StructuredDataFacts) :
    0 ≤ (scoreStructuredData data).score ∧ (scoreStructuredData data).score ≤ 100 := by
  simp only [scoreStructuredData, FW_structuredData]
  constructor
  · refine add_nonneg (add_nonneg (add_nonneg (add_nonneg (add_nonneg (add_nonneg (add_nonneg ?_ ?_) ?_) ?_) ?_) ?_) ?_) ?_
    all_goals exact (binScore_bounds _ (by norm_num)).1
  · refine le_trans ?_ (show (30:ℚ)+20+15+10+10+5+5+5 ≤ 100 by norm_num)
    refine add_le_add (add_le_add (add_le_add (add_le_add (add_le_add (add_le_add (add_le_add ?_ ?_) ?_) ?_) ?_) ?_) ?_) ?_
    all_goals exact (binScore_bounds _ (by norm_num)).2

theorem scoreProtocolMeta_score_bounds (data : Option MetaTagsFacts)
    (iv : Option ImageVerificationResult) :
    0 ≤ (scoreProtocolMeta data iv).score ∧ (scoreProtocolMeta data iv).score ≤ 100 := by
  simp only [scoreProtocolMeta, FW_protocolMeta]
  constructor
  · refine add_nonneg (add_nonneg (add_nonneg (add_nonneg (add_nonneg (add_nonneg (add_nonneg (add_nonneg (add_nonneg ?_ ?_) ?_) ?_) ?_) ?_) ?_) ?_) ?_) ?_
    exacts [(binScore_bounds _ (by norm_num)).1, (ogImageFormat_bounds _ _).1,
      (presentOptimalScore_bounds _ _ (by norm_num)).1,
      (presentOptimalScore_bounds _ _ (by norm_num)).1, (binScore_bounds _ (by norm_num)).1,
      (presentOptimalScore_bounds _ _ (by norm_num)).1, (binScore_bounds _ (by norm_num)).1,
      (presentOptimalScore_bounds _ _ (by norm_num)).1,
      (presentOptimalScore_bounds _ _ (by norm_num)).1, (gatedScore_bounds _ (by norm_num)).1]
  · refine le_trans ?_ (show (20:ℚ)+15+10+10+5+10+5+10+10+5 ≤ 100 by norm_num)
    refine add_le_add (add_le_add (add_le_add (add_le_add (add_le_add (add_le_add (add_le_add (add_le_add (add_le_add ?_ ?_) ?_) ?_) ?_) ?_) ?_) ?_) ?_) ?_
    exacts [(binScore_bounds _ (by norm_num)).2, (ogImageFormat_bounds _ _).2,
      (presentOptimalScore_bounds _ _ (by norm_num)).2,
      (presentOptimalScore_bounds _ _ (by norm_num)).2, (binScore_bounds _ (by norm_num)).2,
      (presentOptimalScore_bounds _ _ (by norm_num)).2, (binScore_bounds _ (by norm_num)).2,
      (presentOptimalScore_bounds _ _ (by norm_num)).2,
      (presentOptimalScore_bounds _ _ (by norm_num)).2, (gatedScore_bounds _ (by norm_num)).2]

theorem scoreContentQuality_score_bounds (context : String)
    (data : Option ContentQualityFacts) (hv : ValidContentQuality data) :
    0 ≤ (scoreContentQuality context data).score ∧
      (scoreContentQuality context data).score ≤ 100 := by
  obtain ⟨hL, hS, hF, hQ⟩ := hv
  obtain ⟨hm1, hm2, hm3, hm4, hm5, hm6, hm7⟩ := engineMultipliers_bounds context
  simp only [scoreContentQuality, FW_contentQuality]
  constructor
  · refine le_min (by norm_num) ?_
    refine add_nonneg (add_nonneg (add_nonneg (add_nonneg (add_nonneg (add_nonneg (add_nonneg (add_nonneg (add_nonneg ?_ ?_) ?_) ?_) ?_) ?_) ?_) ?_) ?_) ?_
    exacts [(fractionScore_bounds 15 hL.1 hL.2 (by norm_num) (by norm_num)).1,
      (descQualityPoints_bounds _ hm1.1 hm2.1 _).1,
      (specificationsPoints_bounds _ hm2.1 _ hS.1 hS.2).1,
      (fractionScore_bounds 10 hF.1 hF.2 (by norm_num) (by norm_num)).1,
      (fractionScore_bounds 10 hQ.1 hQ.2 (by norm_num) (by norm_num)).1,
      (dimensionsPoints_bounds _ _).1, (binScore_bounds _ (by norm_num)).1,
      (binScore_bounds _ (by norm_num)).1, (warrantyPoints_bounds _ hm7.1 _).1,
      (compatibilityPoints_bounds _ hm3.1 _).1]
  · exact min_le_left _ _

theorem scoreContentStructure_score_bounds (data : Option ContentStructureFacts)
    (hv : ValidContentStructure data) :
    0 ≤ (scoreContentStructure data).score ∧ (scoreContentStructure data).score ≤ 100 := by
  obtain ⟨hSem, hRat, hTab, hLis, hAlt, hJs⟩ := hv
  simp only [scoreContentStructure, FW_contentStructure]
  constructor
  · refine le_min (by norm_num) ?_
    refine add_nonneg (add_nonneg (add_nonneg (add_nonneg (add_nonneg (add_nonneg (add_nonneg (add_nonneg (add_nonneg ?_ ?_) ?_) ?_) ?_) ?_) ?_) ?_) ?_) ?_
    exacts [(h1Points_bounds _).1, (hierarchyPoints_bounds _).1,
      (fractionScore_bounds 12 hSem.1 hSem.2 (by norm_num) (by norm_num)).1,
      (fractionScore_bounds 12 hRat.1 hRat.2 (by norm_num) (by norm_num)).1,
      (fractionScore_bounds 10 hTab.1 hTab.2 (by norm_num) (by norm_num)).1,
      (fractionScore_bounds 8 hLis.1 hLis.2 (by norm_num) (by norm_num)).1,
      (binScore_bounds _ (by norm_num)).1, (binScore_bounds _ (by norm_num)).1,
      (allAltPoints_bounds _ hAlt.1 hAlt.2).1, (jsDependencyPoints_bounds _ hJs.1 hJs.2).1]
  · exact min_le_left _ _

theorem scoreAuthorityTrust_score_bounds (context : String)
    (data : Option TrustSignalsFacts) (hv : ValidTrustSignals data) :
    0 ≤ (scoreAuthorityTrust context data).score ∧
      (scoreAuthorityTrust context data).score ≤ 100 := by
  obtain ⟨hCnt, hRat, hDep, hBra, hCer⟩ := hv
  obtain ⟨hm1, hm2, hm3, hm4, hm5, hm6, hm7⟩ := engineMultipliers_bounds context
  simp only [scoreAuthorityTrust, FW_authorityTrust]
  constructor
  · refine le_min (by norm_num) ?_
    refine add_nonneg (add_nonneg (add_nonneg (add_nonneg (add_nonneg (add_nonneg ?_ ?_) ?_) ?_) ?_) ?_) ?_
    exacts [(reviewCountPoints_bounds _ hm5.1 _ hCnt.1 hCnt.2).1,
      (averageRatingPoints_bounds _ hm6.1 _ hRat.1 hRat.2).1, (recencyPoints_bounds _).1,
      (fractionScore_bounds 10 hDep.1 hDep.2 (by norm_num) (by norm_num)).1,
      (fractionScore_bounds 15 hBra.1 hBra.2 (by norm_num) (by norm_num)).1,
      (certificationsPoints_bounds _ hm4.1 _ hCer.1 hCer.2).1,
      (binScore_bounds _ (by norm_num)).1]
  · exact min_le_left _ _

/-! ## Claim theorems -/

theorem jsRound_isInt (x : ℚ) : ∃ n : ℤ, jsRound x = (n : ℚ) := ⟨(x + 1/2).floor, rfl⟩

/-- An all-default (hence valid) extracted-data record, used to witness
the hypothesised theorems. -/
def exData0 : ExtractedPageData := {}

theorem exData0_valid : ValidExtractedPageData exData0 := by
  simp [ValidExtractedPageData, ValidContentQuality, ValidContentStructure,
    ValidTrustSignals, exData0]

/-- C1: for every input and optional image verification, `calculateScore`
returns a `totalScore` equal to the weighted sum of the five category
scores under the fixed weights 0.25/0.20/0.25/0.15/0.15 (which sum to 1),
rounded to an integer exactly once at the end, and `totalScore ∈ [0, 100]`. -/
theorem calculateScore_totalScore_weighted_bounded (context : String)
    (data : ExtractedPageData) (iv : Option ImageVerificationResult)
    (hv : ValidExtractedPageData data) :
    (calculateScore context data iv).totalScore =
      jsRound ((scoreStructuredData data.structuredData).score * CATEGORY_WEIGHTS.structuredData +
        (scoreProtocolMeta data.metaTags iv).score * CATEGORY_WEIGHTS.protocolMeta +
        (scoreContentQuality context data.contentQuality).score * CATEGORY_WEIGHTS.contentQuality +
        (scoreContentStructure data.contentStructure).score * CATEGORY_WEIGHTS.contentStructure +
        (scoreAuthorityTrust context data.trustSignals).score * CATEGORY_WEIGHTS.authorityTrust) ∧
    CATEGORY_WEIGHTS.structuredData + CATEGORY_WEIGHTS.protocolMeta +
      CATEGORY_WEIGHTS.contentQuality + CATEGORY_WEIGHTS.contentStructure +
      CATEGORY_WEIGHTS.authorityTrust = 1 ∧
    (∃ n : ℤ, (calculateScore context data iv).totalScore = (n : ℚ)) ∧
    0 ≤ (calculateScore context data iv).totalScore ∧
    (calculateScore context data iv).totalScore ≤ 100 := by
  obtain ⟨hq, hs, ht⟩ := hv
  have h1 := scoreStructuredData_score_bounds data.structuredData
  have h2 := scoreProtocolMeta_score_bounds data.metaTags iv
  have h3 := scoreContentQuality_score_bounds context data.contentQuality hq
  have h4 := scoreContentStructure_score_bounds data.contentStructure hs
  have h5 := scoreAuthorityTrust_score_bounds context data.trustSignals ht
  have htot : (calculateScore context data iv).totalScore =
      jsRound ((scoreStructuredData data.structuredData).score * CATEGORY_WEIGHTS.structuredData +
        (scoreProtocolMeta data.metaTags iv).score * CATEGORY_WEIGHTS.protocolMeta +
        (scoreContentQuality context data.contentQuality).score * CATEGORY_WEIGHTS.contentQuality +
        (scoreContentStructure data.contentStructure).score * CATEGORY_WEIGHTS.contentStructure +
        (scoreAuthorityTrust context data.trustSignals).score * CATEGORY_WEIGHTS.authorityTrust) :=
    rfl
  refine ⟨htot, by norm_num [CATEGORY_WEIGHTS], ?_, ?_, ?_⟩
  · rw [htot]; exact jsRound_isInt _
  · rw [htot]
    apply jsRound_nonneg
    simp only [CATEGORY_WEIGHTS]
    nlinarith [h1.1, h2.1, h3.1, h4.1, h5.1]
  · rw [htot]
    simp only [CATEGORY_WEIGHTS]
    refine le_trans (jsRound_le (n := 100) ?_) (by norm_num)
    push_cast
    nlinarith [h1.2, h2.2, h3.2, h4.2, h5.2]

theorem calculateScore_totalScore_weighted_bounded_witness :
    ValidExtractedPageData exData0 ∧
    0 ≤ (calculateScore "hybrid" exData0 none).totalScore ∧
    (calculateScore "hybrid" exData0 none).totalScore ≤ 100 :=
  ⟨exData0_valid,
    (calculateScore_totalScore_weighted_bounded "hybrid" exData0 none exData0_valid).2.2.2⟩

/-- C2: `getGrade` is a total function of the score with exact
left-closed boundaries (A at 90+, B at 80+, C at 70+, D at 60+, F below),
and in particular grade(89)=B, grade(90)=A, grade(59)=F, grade(60)=D. -/
theorem getGrade_boundaries (score : ℚ) :
    (getGrade score = "A" ↔ 90 ≤ score) ∧
    (getGrade score = "B" ↔ 80 ≤ score ∧ score < 90) ∧
    (getGrade score = "C" ↔ 70 ≤ score ∧ score < 80) ∧
    (getGrade score = "D" ↔ 60 ≤ score ∧ score < 70) ∧
    (getGrade score = "F" ↔ score < 60) ∧
    getGrade 89 = "B" ∧ getGrade 90 = "A" ∧ getGrade 59 = "F" ∧ getGrade 60 = "D" := by
  refine ⟨?_, ?_, ?_, ?_, ?_, by decide, by decide, by decide, by decide⟩ <;>
    · simp only [getGrade, GRADE_THRESHOLDS]
      split_ifs <;> simp_all <;> first
        | linarith
        | (constructor <;> linarith)
        | (rintro ⟨hx, hy⟩ <;> linarith)
        | (intro hx <;> linarith)

/-- C3: each of the five category scorers returns a score in `[0, 100]`
(the structured-data and protocol-meta scorers are unclamped but their
factor maxima sum to exactly 100; the other three are clamped). -/
theorem categoryScores_in_range (context : String) (data : ExtractedPageData)
    (iv : Option ImageVerificationResult) (hv : ValidExtractedPageData data) :
    (0 ≤ (calculateScore context data iv).categoryScores.structuredData.score ∧
      (calculateScore context data iv).categoryScores.structuredData.score ≤ 100) ∧
    (0 ≤ (calculateScore context data iv).categoryScores.protocolMeta.score ∧
      (calculateScore context data iv).categoryScores.protocolMeta.score ≤ 100) ∧
    (0 ≤ (calculateScore context data iv).categoryScores.contentQuality.score ∧
      (calculateScore context data iv).categoryScores.contentQuality.score ≤ 100) ∧
    (0 ≤ (calculateScore context data iv).categoryScores.contentStructure.score ∧
      (calculateScore context data iv).categoryScores.contentStructure.score ≤ 100) ∧
    (0 ≤ (calculateScore context data iv).categoryScores.authorityTrust.score ∧
      (calculateScore context data iv).categoryScores.authorityTrust.score ≤ 100) ∧
    (((calculateScore context data iv).categoryScores.structuredData.factors.map
        Factor.maxPoints).sum = 100) ∧
    (((calculateScore context data iv).categoryScores.protocolMeta.factors.map
        Factor.maxPoints).sum = 100) := by
  obtain ⟨hq, hs, ht⟩ := hv
  refine ⟨scoreStructuredData_score_bounds data.structuredData,
    scoreProtocolMeta_score_bounds data.metaTags iv,
    scoreContentQuality_score_bounds context data.contentQuality hq,
    scoreContentStructure_score_bounds data.contentStructure hs,
    scoreAuthorityTrust_score_bounds context data.trustSignals ht, ?_, ?_⟩
  · simp [calculateScore, scoreStructuredData, FW_structuredData]
    norm_num
  · simp [calculateScore, scoreProtocolMeta, FW_protocolMeta]
    norm_num

theorem categoryScores_in_range_witness :
    ValidExtractedPageData exData0 ∧
    (0 ≤ (calculateScore "hybrid" exData0 none).categoryScores.contentQuality.score ∧
      (calculateScore "hybrid" exData0 none).categoryScores.contentQuality.score ≤ 100) :=
  ⟨exData0_valid, (categoryScores_in_range "hybrid" exData0 none exData0_valid).2.2.1⟩

/-- Concrete meta-tags input whose og:image URL has no recognizable
extension (so the no-verification heuristic is inconclusive). -/
def pmExNoExt : MetaTagsFacts := { openGraph := some { image := "https://a/b" } }

/-- C5 counterexample: with no `ImageVerificationResult` and an
inconclusive og:image URL, the format factor gets 0 points and status
`unknown` — not half of the factor weight as the claim states for
unverified formats. -/
theorem ogImageFormat_unverified_gets_zero_not_half :
    ((scoreProtocolMeta (some pmExNoExt) none).factors.getD 1 default).points = 0 ∧
    ((scoreProtocolMeta (some pmExNoExt) none).factors.getD 1 default).status =
      Status.unknown ∧
    ((scoreProtocolMeta (some pmExNoExt) none).factors.getD 1 default).points ≠
      FW_protocolMeta.ogImageFormat / 2 := by
  have hp : ((scoreProtocolMeta (some pmExNoExt) none).factors.getD 1 default).points = 0 := by
    decide
  have hs : ((scoreProtocolMeta (some pmExNoExt) none).factors.getD 1 default).status =
      Status.unknown := by decide
  refine ⟨hp, hs, ?_⟩
  rw [hp]
  norm_num [FW_protocolMeta]

/-- C5 (amended): when an `ImageVerificationResult` is supplied the
og:image format factor is scored three-way — `isWebP` forces 0 points,
status `fail` and the `critical` flag regardless of all other input; a
recognized raster format (`isValidFormat`) gets the full weight; a
verified-but-unknown format gets half the weight with a warning.  With no
verification the URL heuristic applies and an inconclusive URL gets 0
points with status `unknown` (never half). -/
theorem ogImageFormat_three_way (data : Option MetaTagsFacts) (v : ImageVerificationResult) :
    (v.isWebP = true →
      ((scoreProtocolMeta data (some v)).factors.getD 1 default).points = 0 ∧
      ((scoreProtocolMeta data (some v)).factors.getD 1 default).status = Status.fail ∧
      ((scoreProtocolMeta data (some v)).factors.getD 1 default).critical = true) ∧
    (v.isWebP = false → v.isValidFormat = true →
      ((scoreProtocolMeta data (some v)).factors.getD 1 default).points =
        FW_protocolMeta.ogImageFormat ∧
      ((scoreProtocolMeta data (some v)).factors.getD 1 default).status = Status.pass) ∧
    (v.isWebP = false → v.isValidFormat = false →
      ((scoreProtocolMeta data (some v)).factors.getD 1 default).points =
        FW_protocolMeta.ogImageFormat / 2 ∧
      ((scoreProtocolMeta data (some v)).factors.getD 1 default).status = Status.warning) := by
  rcases v with ⟨w, vf⟩
  cases w <;> cases vf <;>
    simp [scoreProtocolMeta, ogImageFormat, FW_protocolMeta]

theorem ogImageFormat_three_way_witness :
    ((scoreProtocolMeta none (some { isWebP := true, isValidFormat := false })).factors.getD 1
        default).points = 0 ∧
    ((scoreProtocolMeta none (some { isWebP := true, isValidFormat := false })).factors.getD 1
        default).status = Status.fail ∧
    ((scoreProtocolMeta none (some { isWebP := true, isValidFormat := false })).factors.getD 1
        default).critical = true :=
  (ogImageFormat_three_way none { isWebP := true, isValidFormat := false }).1 rfl

theorem jsRound_zero : jsRound 0 = 0 := by rw [jsRound_eq]; norm_num

/-- C6 counterexample: the JavaScript-dependency factor depends only on
the `jsDependency` facts; with the whole content-structure section
missing it still receives its FULL weight (10 = maxPoints) with status
`fail` — not zero points as the claim states. -/
theorem missing_facts_jsDependency_full_points :
    ((scoreContentStructure none).factors.getD 9 default).status = Status.fail ∧
    ((scoreContentStructure none).factors.getD 9 default).points = 10 ∧
    ((scoreContentStructure none).factors.getD 9 default).maxPoints = 10 ∧
    ((scoreContentStructure none).factors.getD 9 default).points ≠ 0 := by
  refine ⟨by decide, by decide, by decide, by decide⟩

/-- C6 (amended): with a category's facts section entirely missing the
content-structure and authority-trust scorers raise no error (they are
total functions) and every factor receives status `fail` and zero
points, EXCEPT heading hierarchy (half weight, status `warning`),
JavaScript dependency (full weight, status `fail`) and review recency
(full weight, status `pass`), which default favourably. -/
theorem missing_facts_default_statuses (context : String) :
    ((scoreContentStructure none).factors.map (fun f => (f.status, f.points))) =
      [(Status.fail, 0), (Status.warning, 6), (Status.fail, 0), (Status.fail, 0),
       (Status.fail, 0), (Status.fail, 0), (Status.fail, 0), (Status.fail, 0),
       (Status.fail, 0), (Status.fail, 10)] ∧
    ((scoreAuthorityTrust context none).factors.map (fun f => (f.status, f.points))) =
      [(Status.fail, 0), (Status.fail, 0), (Status.pass, 15), (Status.fail, 0),
       (Status.fail, 0), (Status.fail, 0), (Status.fail, 0)] := by
  constructor
  · simp [scoreContentStructure, h1Points, hierarchyPoints, allAltPoints,
      jsDependencyPoints, fractionScore, binScore, FW_contentStructure, jsRound_zero]
    norm_num
    decide
  · simp [scoreAuthorityTrust, reviewCountPoints, averageRatingPoints, recencyPoints,
      certificationsPoints, fractionScore, binScore, FW_authorityTrust, jsRound_zero]
    norm_num
    decide

/-- C7: scoring identical facts under the `want`, `need` and `hybrid`
contexts changes only the points of factors marked `contextual`: any
factor not marked contextual (in either run) receives identical points,
position by position, across all three contexts. -/
theorem context_switch_only_affects_contextual (data : ExtractedPageData)
    (iv : Option ImageVerificationResult) :
    List.Forall₂ (fun f g => f.contextual = false → g.contextual = false →
        f.points = g.points)
      (calculateScore "want" data iv).categoryScores.allFactors
      (calculateScore "need" data iv).categoryScores.allFactors ∧
    List.Forall₂ (fun f g => f.contextual = false → g.contextual = false →
        f.points = g.points)
      (calculateScore "want" data iv).categoryScores.allFactors
      (calculateScore "hybrid" data iv).categoryScores.allFactors ∧
    List.Forall₂ (fun f g => f.contextual = false → g.contextual = false →
        f.points = g.points)
      (calculateScore "need" data iv).categoryScores.allFactors
      (calculateScore "hybrid" data iv).categoryScores.allFactors := by
  refine ⟨?_, ?_, ?_⟩ <;>
  · simp only [calculateScore, CategoryScores.allFactors, scoreStructuredData,
      scoreProtocolMeta, scoreContentQuality, scoreContentStructure, scoreAuthorityTrust,
      List.cons_append, List.nil_append]
    repeat' constructor
    all_goals intro h1 h2
    all_goals first
      | rfl
      | (refine absurd h1 ?_; simp; done)
      | (refine absurd h2 ?_; simp; done)

/-- Off the `Object.prototype` member names the full constructor lookup
always resolves to a table, and to exactly the one `engineMultipliers`
models. -/
theorem contextMultipliersLookup_off_prototype (context : String)
    (h : context ∉ OBJECT_PROTOTYPE_MEMBERS) :
    contextMultipliersLookup context = some (engineMultipliers context) := by
  by_cases h1 : context = "want"
  · simp [contextMultipliersLookup, engineMultipliers, h1]
  by_cases h2 : context = "need"
  · simp [contextMultipliersLookup, engineMultipliers, h1, h2]
  by_cases h3 : context = "hybrid"
  · simp [contextMultipliersLookup, engineMultipliers, h1, h2, h3]
  · simp [contextMultipliersLookup, engineMultipliers, h1, h2, h3, h]

/-- C8 counterexample: `toString` lies outside `want`/`need`/`hybrid`,
yet the constructor lookup does not fall back to `hybrid`: it returns
the truthy inherited `Object.prototype.toString`, so
`this.multipliers.technicalSpecifications` reads `undefined` and the
Specifications factor points are `NaN` (`none`), unequal to the `0` a
`hybrid` invocation produces on the same (empty) facts — the factor
points and hence the totalScore diverge from the claimed hybrid result
instead of matching it. -/
theorem prototype_member_context_no_fallback :
    (("toString" : String) ≠ "want" ∧ ("toString" : String) ≠ "need" ∧
      ("toString" : String) ≠ "hybrid") ∧
    contextMultipliersLookup "toString" = none ∧
    contextMultipliersLookup "toString" ≠ some CONTEXT_MULTIPLIERS_hybrid ∧
    specificationsPointsJs "toString" {} = none ∧
    specificationsPointsJs "hybrid" {} = some 0 ∧
    specificationsPointsJs "toString" {} ≠ specificationsPointsJs "hybrid" {} := by
  have hl : contextMultipliersLookup "toString" = none := by
    simp [contextMultipliersLookup, OBJECT_PROTOTYPE_MEMBERS]
  have ht : specificationsPointsJs "toString" {} = none := by
    simp [specificationsPointsJs, hl, jsMulNum, jsRoundNum, jsMinNum]
  have hlh : contextMultipliersLookup "hybrid" = some CONTEXT_MULTIPLIERS_hybrid := by
    simp [contextMultipliersLookup]
  have hh : specificationsPointsJs "hybrid" {} = some 0 := by
    simp only [specificationsPointsJs, hlh, Option.map_some]
    norm_num [CONTEXT_MULTIPLIERS_hybrid, FW_contentQuality, fractionScore,
      jsMulNum, jsRoundNum, jsMinNum, jsRound_zero, min_def]
  refine ⟨⟨by decide, by decide, by decide⟩, hl, ?_, ht, hh, ?_⟩
  · rw [hl]; simp
  · rw [ht, hh]; simp

/-- C8 (amended): an unrecognized context string falls back to `hybrid`
only when it is not an `Object.prototype` member name: then the
constructor lookup resolves to the hybrid table and `calculateScore`
produces the same totalScore, grade, and per-category scores and
factors as an invocation with `hybrid` (only the echoed `context`
string differs). For a context naming an `Object.prototype` member the
lookup instead keeps the truthy inherited member and the scores go
`NaN`. -/
theorem non_prototype_unrecognized_context_falls_back_to_hybrid
    (context : String) (data : ExtractedPageData) (iv : Option ImageVerificationResult)
    (h1 : context ≠ "want") (h2 : context ≠ "need") (h3 : context ≠ "hybrid")
    (h4 : context ∉ OBJECT_PROTOTYPE_MEMBERS) :
    contextMultipliersLookup context = some CONTEXT_MULTIPLIERS_hybrid ∧
    (calculateScore context data iv).totalScore =
      (calculateScore "hybrid" data iv).totalScore ∧
    (calculateScore context data iv).grade = (calculateScore "hybrid" data iv).grade ∧
    (calculateScore context data iv).categoryScores =
      (calculateScore "hybrid" data iv).categoryScores := by
  have hm : engineMultipliers context = engineMultipliers "hybrid" := by
    simp [engineMultipliers, h1, h2]
  have hlook : contextMultipliersLookup context = some CONTEXT_MULTIPLIERS_hybrid := by
    rw [contextMultipliersLookup_off_prototype context h4, hm]
    rfl
  have hflag : (context == "need") = (("hybrid" : String) == "need") := by
    simp [h2]
  have hd : ∀ d, dimensionsPoints context d = dimensionsPoints "hybrid" d := by
    intro d
    simp [dimensionsPoints, h2]
  have hcq : ∀ d, scoreContentQuality context d = scoreContentQuality "hybrid" d := by
    intro d
    simp only [scoreContentQuality]
    rw [hm, hflag, hd]
  have hat : ∀ d, scoreAuthorityTrust context d = scoreAuthorityTrust "hybrid" d := by
    intro d
    simp only [scoreAuthorityTrust]
    rw [hm]
  refine ⟨hlook, ?_, ?_, ?_⟩ <;> simp only [calculateScore] <;> rw [hcq, hat]

theorem non_prototype_unrecognized_context_falls_back_to_hybrid_witness :
    ("legacy" ≠ "want" ∧ "legacy" ≠ "need" ∧ "legacy" ≠ "hybrid" ∧
      "legacy" ∉ OBJECT_PROTOTYPE_MEMBERS) ∧
    contextMultipliersLookup "legacy" = some CONTEXT_MULTIPLIERS_hybrid ∧
    (calculateScore "legacy" exData0 none).totalScore =
      (calculateScore "hybrid" exData0 none).totalScore ∧
    (calculateScore "legacy" exData0 none).grade =
      (calculateScore "hybrid" exData0 none).grade ∧
    (calculateScore "legacy" exData0 none).categoryScores =
      (calculateScore "hybrid" exData0 none).categoryScores :=
  ⟨⟨by decide, by decide, by decide, by decide⟩,
    non_prototype_unrecognized_context_falls_back_to_hybrid "legacy" exData0 none
      (by decide) (by decide) (by decide) (by decide)⟩

/-- C10: the Content Quality category can never reach its declared
`maxScore` of 100: the ten evaluated factors cap at
15+10+10+10+10+5+5+3+7+20 = 95 (20 only via the 2x compatibility
overshoot), so the score is at most 95 for every input and context, at
most 85 under `hybrid`, and the `specificationDetail` /
`comparisonContent` weights are never evaluated (the factor list is
exactly the ten named factors). -/
theorem contentQuality_score_never_reaches_max (context : String)
    (data : Option ContentQualityFacts) (hv : ValidContentQuality data) :
    (scoreContentQuality context data).score ≤ 95 ∧
    (scoreContentQuality context data).score < (scoreContentQuality context data).maxScore ∧
    (scoreContentQuality context data).maxScore = 100 ∧
    (context = "hybrid" → (scoreContentQuality context data).score ≤ 85) ∧
    ((scoreContentQuality context data).factors.map Factor.name) =
      ["Description Length", "Description Quality", "Specifications", "Features List",
       "FAQ Section", "Dimensions/Size", "Materials", "Care Instructions",
       "Warranty Information", "Compatibility Information"] := by
  obtain ⟨hL, hS, hF, hQ⟩ := hv
  obtain ⟨hm1, hm2, hm3, hm4, hm5, hm6, hm7⟩ := engineMultipliers_bounds context
  have hle : ∀ c : String, (scoreContentQuality c data).score ≤ 95 := by
    intro c
    obtain ⟨hc1, hc2, hc3, hc4, hc5, hc6, hc7⟩ := engineMultipliers_bounds c
    simp only [scoreContentQuality, FW_contentQuality]
    refine le_trans (min_le_right _ _) ?_
    refine le_trans ?_ (show (15:ℚ)+10+10+10+10+5+5+3+7+20 ≤ 95 by norm_num)
    refine add_le_add (add_le_add (add_le_add (add_le_add (add_le_add (add_le_add (add_le_add (add_le_add (add_le_add ?_ ?_) ?_) ?_) ?_) ?_) ?_) ?_) ?_) ?_
    exacts [(fractionScore_bounds 15 hL.1 hL.2 (by norm_num) (by norm_num)).2,
      (descQualityPoints_bounds _ hc1.1 hc2.1 _).2,
      (specificationsPoints_bounds _ hc2.1 _ hS.1 hS.2).2,
      (fractionScore_bounds 10 hF.1 hF.2 (by norm_num) (by norm_num)).2,
      (fractionScore_bounds 10 hQ.1 hQ.2 (by norm_num) (by norm_num)).2,
      (dimensionsPoints_bounds _ _).2, (binScore_bounds _ (by norm_num)).2,
      (binScore_bounds _ (by norm_num)).2, (warrantyPoints_bounds _ hc7.1 _).2,
      (compatibilityPoints_bounds _ hc3.1 _).2]
  refine ⟨hle context, ?_, rfl, ?_, ?_⟩
  · have := hle context
    simp only [scoreContentQuality] at this ⊢
    linarith
  · intro hctx
    subst hctx
    have hone : 0 ≤ (engineMultipliers "hybrid").compatibilityInfo ∧
        (engineMultipliers "hybrid").compatibilityInfo ≤ 1 := by
      constructor <;> simp [engineMultipliers, CONTEXT_MULTIPLIERS_hybrid] <;> norm_num
    obtain ⟨hc1, hc2, hc3, hc4, hc5, hc6, hc7⟩ := engineMultipliers_bounds "hybrid"
    simp only [scoreContentQuality, FW_contentQuality]
    refine le_trans (min_le_right _ _) ?_
    refine le_trans ?_ (show (15:ℚ)+10+10+10+10+5+5+3+7+10 ≤ 85 by norm_num)
    refine add_le_add (add_le_add (add_le_add (add_le_add (add_le_add (add_le_add (add_le_add (add_le_add (add_le_add ?_ ?_) ?_) ?_) ?_) ?_) ?_) ?_) ?_) ?_
    exacts [(fractionScore_bounds 15 hL.1 hL.2 (by norm_num) (by norm_num)).2,
      (descQualityPoints_bounds _ hc1.1 hc2.1 _).2,
      (specificationsPoints_bounds _ hc2.1 _ hS.1 hS.2).2,
      (fractionScore_bounds 10 hF.1 hF.2 (by norm_num) (by norm_num)).2,
      (fractionScore_bounds 10 hQ.1 hQ.2 (by norm_num) (by norm_num)).2,
      (dimensionsPoints_bounds _ _).2, (binScore_bounds _ (by norm_num)).2,
      (binScore_bounds _ (by norm_num)).2, (warrantyPoints_bounds _ hc7.1 _).2,
      compatibilityPoints_le_of_le_one _ hone.1 hone.2 _]
  · simp [scoreContentQuality]

theorem contentQuality_score_never_reaches_max_witness :
    ValidContentQuality (none : Option ContentQualityFacts) ∧
    (scoreContentQuality "hybrid" none).score ≤ 95 ∧
    (scoreContentQuality "hybrid" none).score ≤ 85 := by
  have hv : ValidContentQuality (none : Option ContentQualityFacts) := by
    simp [ValidContentQuality]
  exact ⟨hv, (contentQuality_score_never_reaches_max "hybrid" none hv).1,
    (contentQuality_score_never_reaches_max "hybrid" none hv).2.2.2.1 rfl⟩

/-- The documented per-factor point ceiling: the factor's `maxPoints`,
except for the three documented overshoot factors — review count (1.5x),
certifications (1.6x) and compatibility (2.0x). -/
def factorCeiling (f : Factor) : ℚ :=
  if f.name = "Review Count" then f.maxPoints * 1.5
  else if f.name = "Certifications" then f.maxPoints * 1.6
  else if f.name = "Compatibility Information" then f.maxPoints * 2
  else f.maxPoints

theorem factorCeiling_default (f : Factor) (h1 : f.name ≠ "Review Count")
    (h2 : f.name ≠ "Certifications") (h3 : f.name ≠ "Compatibility Information") :
    factorCeiling f = f.maxPoints := by
  simp [factorCeiling, h1, h2, h3]

theorem factorCeiling_reviewCount (f : Factor) (h : f.name = "Review Count") :
    factorCeiling f = f.maxPoints * 1.5 := by
  simp [factorCeiling, h]

theorem factorCeiling_certifications (f : Factor) (h : f.name = "Certifications") :
    factorCeiling f = f.maxPoints * 1.6 := by
  simp [factorCeiling, h]

theorem factorCeiling_compatibility (f : Factor) (h : f.name = "Compatibility Information") :
    factorCeiling f = f.maxPoints * 2 := by
  simp [factorCeiling, h]

theorem compatibilityPoints_le_double (m : Multipliers) (details : ProductDetailsFacts) :
    compatibilityPoints m details ≤ 10 * 2 := by
  simp only [compatibilityPoints, FW_contentQuality]
  exact min_le_left _ _


/-- C4: every factor record produced by any category scorer, under any
context, has `points` at most `maxPoints`, except the three documented
overshoot factors whose ceiling is the documented multiple of their
nominal weight (review count 1.5x, certifications 1.6x, compatibility
2.0x); no factor ever exceeds its documented ceiling. -/
theorem factor_points_le_ceiling (context : String) (data : ExtractedPageData)
    (iv : Option ImageVerificationResult) (hv : ValidExtractedPageData data) :
    ∀ f ∈ (calculateScore context data iv).categoryScores.allFactors,
      f.points ≤ factorCeiling f := by
  obtain ⟨hq, hs, ht⟩ := hv
  obtain ⟨hL, hS, hF, hQ⟩ := hq
  obtain ⟨hSem, hRat, hTab, hLis, hAlt, hJs⟩ := hs
  obtain ⟨hCnt, hRat2, hDep, hBra, hCer⟩ := ht
  obtain ⟨hm1, hm2, hm3, hm4, hm5, hm6, hm7⟩ := engineMultipliers_bounds context
  intro f hf
  simp only [calculateScore, CategoryScores.allFactors, scoreStructuredData,
    scoreProtocolMeta, scoreContentQuality, scoreContentStructure, scoreAuthorityTrust,
    List.mem_append, List.mem_cons, List.not_mem_nil, or_false, or_assoc] at hf
  rcases hf with rfl|rfl|rfl|rfl|rfl|rfl|rfl|rfl|rfl|rfl|rfl|rfl|rfl|rfl|rfl|rfl|rfl|rfl|rfl|rfl|rfl|rfl|rfl|rfl|rfl|rfl|rfl|rfl|rfl|rfl|rfl|rfl|rfl|rfl|rfl|rfl|rfl|rfl|rfl|rfl|rfl|rfl|rfl|rfl|rfl
  · simp [factorCeiling]
    exact (binScore_bounds _ (by norm_num [FW_structuredData])).2
  · simp [factorCeiling]
    exact (binScore_bounds _ (by norm_num [FW_structuredData])).2
  · simp [factorCeiling]
    exact (binScore_bounds _ (by norm_num [FW_structuredData])).2
  · simp [factorCeiling]
    exact (binScore_bounds _ (by norm_num [FW_structuredData])).2
  · simp [factorCeiling]
    exact (binScore_bounds _ (by norm_num [FW_structuredData])).2
  · simp [factorCeiling]
    exact (binScore_bounds _ (by norm_num [FW_structuredData])).2
  · simp [factorCeiling]
    exact (binScore_bounds _ (by norm_num [FW_structuredData])).2
  · simp [factorCeiling]
    exact (binScore_bounds _ (by norm_num [FW_structuredData])).2
  · simp [factorCeiling]
    exact (binScore_bounds _ (by norm_num [FW_protocolMeta])).2
  · simp [factorCeiling]
    exact (ogImageFormat_bounds _ _).2
  · simp [factorCeiling]
    exact (presentOptimalScore_bounds _ _ (by norm_num [FW_protocolMeta])).2
  · simp [factorCeiling]
    exact (presentOptimalScore_bounds _ _ (by norm_num [FW_protocolMeta])).2
  · simp [factorCeiling]
    exact (binScore_bounds _ (by norm_num [FW_protocolMeta])).2
  · simp [factorCeiling]
    exact (presentOptimalScore_bounds _ _ (by norm_num [FW_protocolMeta])).2
  · simp [factorCeiling]
    exact (binScore_bounds _ (by norm_num [FW_protocolMeta])).2
  · simp [factorCeiling]
    exact (presentOptimalScore_bounds _ _ (by norm_num [FW_protocolMeta])).2
  · simp [factorCeiling]
    exact (presentOptimalScore_bounds _ _ (by norm_num [FW_protocolMeta])).2
  · simp [factorCeiling]
    exact (gatedScore_bounds _ (by norm_num [FW_protocolMeta])).2
  · simp [factorCeiling]
    exact (fractionScore_bounds 15 hL.1 hL.2 (by norm_num [FW_contentQuality]) (by norm_num [FW_contentQuality])).2
  · simp [factorCeiling]
    exact (descQualityPoints_bounds _ hm1.1 hm2.1 _).2
  · simp [factorCeiling]
    exact (specificationsPoints_bounds _ hm2.1 _ hS.1 hS.2).2
  · simp [factorCeiling]
    exact (fractionScore_bounds 10 hF.1 hF.2 (by norm_num [FW_contentQuality]) (by norm_num [FW_contentQuality])).2
  · simp [factorCeiling]
    exact (fractionScore_bounds 10 hQ.1 hQ.2 (by norm_num [FW_contentQuality]) (by norm_num [FW_contentQuality])).2
  · simp [factorCeiling]
    exact (dimensionsPoints_bounds _ _).2
  · simp [factorCeiling]
    exact (binScore_bounds _ (by norm_num [FW_contentQuality])).2
  · simp [factorCeiling]
    exact (binScore_bounds _ (by norm_num [FW_contentQuality])).2
  · simp [factorCeiling]
    exact (warrantyPoints_bounds _ hm7.1 _).2
  · simp [factorCeiling]
    exact compatibilityPoints_le_double _ _
  · simp [factorCeiling]
    exact (h1Points_bounds _).2
  · simp [factorCeiling]
    exact (hierarchyPoints_bounds _).2
  · simp [factorCeiling]
    exact (fractionScore_bounds 12 hSem.1 hSem.2 (by norm_num [FW_contentStructure]) (by norm_num [FW_contentStructure])).2
  · simp [factorCeiling]
    exact (fractionScore_bounds 12 hRat.1 hRat.2 (by norm_num [FW_contentStructure]) (by norm_num [FW_contentStructure])).2
  · simp [factorCeiling]
    exact (fractionScore_bounds 10 hTab.1 hTab.2 (by norm_num [FW_contentStructure]) (by norm_num [FW_contentStructure])).2
  · simp [factorCeiling]
    exact (fractionScore_bounds 8 hLis.1 hLis.2 (by norm_num [FW_contentStructure]) (by norm_num [FW_contentStructure])).2
  · simp [factorCeiling]
    exact (binScore_bounds _ (by norm_num [FW_contentStructure])).2
  · simp [factorCeiling]
    exact (binScore_bounds _ (by norm_num [FW_contentStructure])).2
  · simp [factorCeiling]
    exact (allAltPoints_bounds _ hAlt.1 hAlt.2).2
  · simp [factorCeiling]
    exact (jsDependencyPoints_bounds _ hJs.1 hJs.2).2
  · simp [factorCeiling]
    exact (reviewCountPoints_bounds _ hm5.1 _ hCnt.1 hCnt.2).2
  · simp [factorCeiling]
    exact (averageRatingPoints_bounds _ hm6.1 _ hRat2.1 hRat2.2).2
  · simp [factorCeiling]
    exact (recencyPoints_bounds _).2
  · simp [factorCeiling]
    exact (fractionScore_bounds 10 hDep.1 hDep.2 (by norm_num [FW_authorityTrust]) (by norm_num [FW_authorityTrust])).2
  · simp [factorCeiling]
    exact (fractionScore_bounds 15 hBra.1 hBra.2 (by norm_num [FW_authorityTrust]) (by norm_num [FW_authorityTrust])).2
  · simp [factorCeiling]
    exact (certificationsPoints_bounds _ hm4.1 _ hCer.1 hCer.2).2
  · simp [factorCeiling]
    exact (binScore_bounds _ (by norm_num [FW_authorityTrust])).2

/-- The head factor of the all-default score result, written out. -/
def productSchemaFactor0 : Factor :=
  { name := "Product Schema", status := Status.fail, points := 0, maxPoints := 30,
    critical := true }

theorem factor_points_le_ceiling_witness :
    ValidExtractedPageData exData0 ∧
    productSchemaFactor0.points ≤ factorCeiling productSchemaFactor0 :=
  ⟨exData0_valid, factor_points_le_ceiling "hybrid" exData0 none exData0_valid
    productSchemaFactor0 (List.mem_cons_self _ _)⟩

/-! ## Recommendation engine (spec §4.4)

The repository tree here does not include
`src/recommendations/recommendation-engine.js` (only the README and the
project notes reference it), so this component is modelled from the
spec's words. -/

/-- Modelled from the spec: the impact tier of a recommendation
(`high` > `medium` > `low`). -/
inductive Impact where
  | high
  | medium
  | low
deriving DecidableEq, Repr

/-- Rank used for ordering: `high` before `medium` before `low`. -/
def impactRank : Impact → ℕ
  | .high => 0
  | .medium => 1
  | .low => 2

/-- Modelled from the spec: a `Recommendation` record
(§3: `{ category, factor, details, impact, effort, priorityRank }`,
with the point gap `maxPoints - points` and the original factor
evaluation index carried for ordering). -/
structure Recommendation where
  category : String
  factor : String
  impact : Impact
  effort : String
  pointGap : ℚ
  origIndex : ℕ
deriving DecidableEq, Repr

/-- Modelled from the spec: the impact tier is "derived from the
`critical` flag and point gap" (§4.4); a critical factor is `high`, a
large gap `medium`, otherwise `low`. -/
def deriveImpact (f : Factor) : Impact :=
  if f.critical then .high
  else if f.maxPoints - f.points ≥ 5 then .medium
  else .low

/-- Modelled from the spec: candidate recommendations — every non-passing
factor (status `warning` or `fail`) in original factor-evaluation order;
a factor with no remediation rule still yields a generic remediation
(`effort := "general"`), never silently dropped (§4.4, §7). -/
def recCandidates (r : ScoreResult) : List Recommendation :=
  (r.categoryScores.allFactors.enum.filter
    (fun p => p.2.status == Status.warning || p.2.status == Status.fail)).map
    (fun p =>
      { category := "", factor := p.2.name, impact := deriveImpact p.2,
        effort := "general", pointGap := p.2.maxPoints - p.2.points, origIndex := p.1 })

/-- Modelled from the spec: the priority order — primary key impact
(`high` > `medium` > `low`), secondary key point gap descending, tertiary
key original evaluation order (ties never broken randomly). -/
def recLE (a b : Recommendation) : Prop :=
  impactRank a.impact < impactRank b.impact ∨
    (impactRank a.impact = impactRank b.impact ∧
      (b.pointGap < a.pointGap ∨
        (b.pointGap = a.pointGap ∧ a.origIndex ≤ b.origIndex)))

instance : DecidableRel recLE := fun a b => by
  unfold recLE
  infer_instance

instance : IsTotal Recommendation recLE := ⟨by
  intro a b
  unfold recLE
  rcases lt_trichotomy (impactRank a.impact) (impactRank b.impact) with h|h|h
  · exact Or.inl (Or.inl h)
  · rcases lt_trichotomy a.pointGap b.pointGap with h2|h2|h2
    · exact Or.inr (Or.inr ⟨h.symm, Or.inl h2⟩)
    · rcases Nat.le_total a.origIndex b.origIndex with h3|h3
      · exact Or.inl (Or.inr ⟨h, Or.inr ⟨h2.symm, h3⟩⟩)
      · exact Or.inr (Or.inr ⟨h.symm, Or.inr ⟨h2, h3⟩⟩)
    · exact Or.inl (Or.inr ⟨h, Or.inl h2⟩)
  · exact Or.inr (Or.inl h)⟩

instance : IsTrans Recommendation recLE := ⟨by
  intro a b c hab hbc
  unfold recLE at hab hbc ⊢
  rcases hab with h1|⟨e1, g1⟩ <;> rcases hbc with h2|⟨e2, g2⟩
  · exact Or.inl (lt_trans h1 h2)
  · exact Or.inl (by omega)
  · exact Or.inl (by omega)
  · refine Or.inr ⟨by omega, ?_⟩
    rcases g1 with hg1|⟨ge1, hi1⟩ <;> rcases g2 with hg2|⟨ge2, hi2⟩
    · exact Or.inl (lt_trans hg2 hg1)
    · exact Or.inl (by linarith)
    · exact Or.inl (by linarith)
    · exact Or.inr ⟨by linarith, Nat.le_trans hi1 hi2⟩⟩

/-- Modelled from the spec: `recommend(scoreResult)` — the candidate list
sorted by the priority order (a stable sort; stability is captured by the
tertiary original-order key, which makes the order total). -/
def recommend (r : ScoreResult) : List Recommendation :=
  List.insertionSort recLE (recCandidates r)

/-- C9: the recommendation list is totally ordered by impact tier, then
point gap descending, then stable original factor order; it is a
permutation of the non-passing-factor candidates, and in particular of
two recommendations with equal impact tier the one with the larger point
gap comes first. -/
theorem recommend_priority_ordered (r : ScoreResult) :
    (recommend r).Sorted recLE ∧
    (recommend r).Perm (recCandidates r) ∧
    (recommend r).Pairwise (fun a b =>
      impactRank a.impact = impactRank b.impact → b.pointGap ≤ a.pointGap) := by
  refine ⟨List.sorted_insertionSort recLE _, List.perm_insertionSort recLE _, ?_⟩
  refine List.Pairwise.imp ?_ (List.sorted_insertionSort recLE (recCandidates r))
  intro a b hab heq
  rcases hab with h|⟨e, g⟩
  · exact absurd heq (by omega)
  · rcases g with hg|⟨hge, hi⟩
    · exact le_of_lt hg
    · exact le_of_eq hge

